import Mathlib

/-!
Verification of the DiveJump Write export/serialization subsystem.

The definitions below are a shallow embedding of the TypeScript source:
byte streams are `List Nat` (each element a byte value), 16/32-bit header
fields are written through `leBytes`, which reproduces the truncating
little-endian semantics of `DataView.setUint16`/`setUint32`, and the
CRC-32 loop is the bitwise algorithm of `crc32` in
`src/bookeditor/src/utils/export/json.ts`.
-/

namespace DiveJump

/-- Little-endian encoding of `v` into `k` bytes, truncating above `256^k`
(the behaviour of `DataView.setUint16`/`setUint32` with `littleEndian`). -/
def leBytes : Nat → Nat → List Nat
  | 0, _ => []
  | k + 1, v => v % 256 :: leBytes k (v / 256)

/-- Little-endian decoding of a byte list back to a number. -/
def decodeLE : List Nat → Nat
  | [] => 0
  | b :: bs => b + 256 * decodeLE bs

/-- `k` bytes of `l` starting at position `p`. -/
def byteSlice (l : List Nat) (p k : Nat) : List Nat := (l.drop p).take k

/-- One shift round of the reflected CRC-32 with polynomial 0xEDB88320
(`crc = crc & 1 ? (crc >>> 1) ^ 0xedb88320 : crc >>> 1`). -/
def crcRound (c : Nat) : Nat := if c % 2 = 1 then (c / 2) ^^^ 0xedb88320 else c / 2

/-- Fold one data byte into the CRC state (`crc ^= byte` then 8 rounds). -/
def crcByte (c b : Nat) : Nat := crcRound^[8] (c ^^^ b)

/-- CRC-32 of a byte list: initial value 0xFFFFFFFF, final XOR 0xFFFFFFFF
(`crc32` in `src/bookeditor/src/utils/export/json.ts`). -/
def crc32 (data : List Nat) : Nat := (data.foldl crcByte 0xffffffff) ^^^ 0xffffffff

/-- UTF-8 encoding of one character (the `TextEncoder` byte layout). -/
def utf8Char (c : Char) : List Nat :=
  let n := c.toNat
  if n < 0x80 then [n]
  else if n < 0x800 then [0xC0 + n / 64, 0x80 + n % 64]
  else if n < 0x10000 then [0xE0 + n / 4096, 0x80 + n / 64 % 64, 0x80 + n % 64]
  else [0xF0 + n / 262144, 0x80 + n / 4096 % 64, 0x80 + n / 64 % 64, 0x80 + n % 64]

/-- UTF-8 encoding of a string (`TextEncoder.encode`). -/
def utf8Bytes (s : String) : List Nat := (s.data.map utf8Char).flatten

/-- An archive entry: `{ name: string; content: string | Uint8Array }`. -/
inductive ZContent where
  | str (s : String)
  | raw (bs : List Nat)
deriving DecidableEq

structure ZEntry where
  name : String
  content : ZContent
deriving DecidableEq

/-- `enc.encode(file.name)`. -/
def ZEntry.nameBytes (e : ZEntry) : List Nat := utf8Bytes e.name

/-- `typeof file.content === 'string' ? enc.encode(file.content) : file.content`. -/
def ZEntry.dataBytes (e : ZEntry) : List Nat :=
  match e.content with
  | ZContent.str s => utf8Bytes s
  | ZContent.raw bs => bs

/-- Concatenation of little-endian fields given as (width, value) pairs. -/
def fieldsLE (fs : List (Nat × Nat)) : List Nat :=
  (fs.map (fun p => leBytes p.1 p.2)).flatten

/-- The fields of the 30-byte local file header, in offset order
(the `localHeader` DataView writes of `buildZip`, field for field):
offsets 0 signature, 4 version needed, 6 flags, 8 compression (stored),
10 mod time, 12 mod date, 14 crc-32, 18 compressed size,
22 uncompressed size, 26 filename length, 28 extra length. -/
def lhFields (e : ZEntry) : List (Nat × Nat) :=
  [(4, 0x04034b50), (2, 20), (2, 0), (2, 0), (2, 0), (2, 0),
   (4, crc32 e.dataBytes), (4, e.dataBytes.length), (4, e.dataBytes.length),
   (2, e.nameBytes.length), (2, 0)]

/-- The 30-byte local file header followed by the filename bytes. -/
def lhBytes (e : ZEntry) : List Nat := fieldsLE (lhFields e) ++ e.nameBytes

/-- Local header plus raw data, as pushed onto `parts`. -/
def localChunk (e : ZEntry) : List Nat := lhBytes e ++ e.dataBytes

/-- `lhBytes.length + dataBytes.length`: the offset advance per entry. -/
def chunkLen (e : ZEntry) : Nat := 30 + e.nameBytes.length + e.dataBytes.length

/-- The fields of the 46-byte central-directory record, in offset order
(the `cdEntry` DataView writes of `buildZip`, field for field):
offsets 0 signature, 4 version made by, 6 version needed, 8 flags,
10 compression, 12 mod time, 14 mod date, 16 crc-32, 20 compressed size,
24 uncompressed size, 28 filename length, 30 extra length,
32 comment length, 34 disk start, 36 internal attrs, 38 external attrs,
42 local header offset. -/
def cdFields (e : ZEntry) (off : Nat) : List (Nat × Nat) :=
  [(4, 0x02014b50), (2, 20), (2, 20), (2, 0), (2, 0), (2, 0), (2, 0),
   (4, crc32 e.dataBytes), (4, e.dataBytes.length), (4, e.dataBytes.length),
   (2, e.nameBytes.length), (2, 0), (2, 0), (2, 0), (2, 0), (4, 0), (4, off)]

/-- The 46-byte central-directory record plus filename bytes. -/
def cdBytes (e : ZEntry) (off : Nat) : List Nat :=
  fieldsLE (cdFields e off) ++ e.nameBytes

def cdLen (e : ZEntry) : Nat := 46 + e.nameBytes.length

/-- The `parts` accumulator of `buildZip`: local chunks in entry order. -/
def zipLocal : List ZEntry → List Nat
  | [] => []
  | e :: es => localChunk e ++ zipLocal es

/-- The `centralDir` accumulator: CD records in entry order, each holding
the running offset of its entry's local header. -/
def zipCD : Nat → List ZEntry → List Nat
  | _, [] => []
  | off, e :: es => cdBytes e off ++ zipCD (off + chunkLen e) es

/-- The fields of the 22-byte end-of-central-directory record, in offset
order (the `eocd` DataView writes of `buildZip`): offsets 0 signature,
4 disk number, 6 cd start disk, 8 entries on this disk, 10 total entries,
12 cd byte size, 16 cd start offset, 20 comment length. -/
def eocdFields (n cdSize cdStart : Nat) : List (Nat × Nat) :=
  [(4, 0x06054b50), (2, 0), (2, 0), (2, n), (2, n),
   (4, cdSize), (4, cdStart), (2, 0)]

/-- End-of-central-directory record. -/
def eocdBytes (n cdSize cdStart : Nat) : List Nat :=
  fieldsLE (eocdFields n cdSize cdStart)

/-- Final value of the `offset` accumulator: total size of the local chunks. -/
def cdStartOf (files : List ZEntry) : Nat := (files.map chunkLen).sum

/-- `centralDir.reduce((s, b) => s + b.length, 0)`. -/
def cdSizeOf (files : List ZEntry) : Nat := (files.map cdLen).sum

/-- `buildZip` of `src/bookeditor/src/utils/export/json.ts`: the blob is the
concatenation of all local chunks, all central-directory records, and the
end-of-central-directory record. -/
def buildZip (files : List ZEntry) : List Nat :=
  zipLocal files ++ zipCD 0 files ++
    eocdBytes files.length (cdSizeOf files) (cdStartOf files)

/-- Byte offset of the `i`-th local file header from the archive start. -/
def lhOff (files : List ZEntry) (i : Nat) : Nat := ((files.take i).map chunkLen).sum

/-- Byte offset of the `i`-th central-directory record from the archive start. -/
def cdOff (files : List ZEntry) (i : Nat) : Nat :=
  cdStartOf files + ((files.take i).map cdLen).sum

/- ### Basic length and decoding lemmas -/

@[simp] theorem leBytes_length (k v : Nat) : (leBytes k v).length = k := by
  induction k generalizing v with
  | zero => simp [leBytes]
  | succ k ih => simp [leBytes, ih]

theorem decodeLE_leBytes (k v : Nat) : decodeLE (leBytes k v) = v % 256 ^ k := by
  induction k generalizing v with
  | zero => simp [leBytes, decodeLE, Nat.mod_one]
  | succ k ih =>
    simp only [leBytes, decodeLE, ih]
    rw [pow_succ, mul_comm (256 ^ k) 256, Nat.mod_mul]

theorem decodeLE_leBytes_of_lt {k v : Nat} (h : v < 256 ^ k) :
    decodeLE (leBytes k v) = v := by
  rw [decodeLE_leBytes, Nat.mod_eq_of_lt h]

theorem fieldsLE_length (fs : List (Nat × Nat)) :
    (fieldsLE fs).length = (fs.map Prod.fst).sum := by
  induction fs with
  | nil => simp [fieldsLE]
  | cons p ps ih => simp [fieldsLE] at ih ⊢; simp [ih]

theorem lhBytes_length (e : ZEntry) : (lhBytes e).length = 30 + e.nameBytes.length := by
  simp [lhBytes, fieldsLE_length, lhFields]

theorem localChunk_length (e : ZEntry) : (localChunk e).length = chunkLen e := by
  simp [localChunk, lhBytes_length, chunkLen, Nat.add_assoc]

theorem cdBytes_length (e : ZEntry) (off : Nat) : (cdBytes e off).length = cdLen e := by
  simp [cdBytes, cdLen, fieldsLE_length, cdFields]

theorem zipLocal_length (files : List ZEntry) :
    (zipLocal files).length = cdStartOf files := by
  induction files with
  | nil => simp [zipLocal, cdStartOf]
  | cons e es ih => simp [zipLocal, cdStartOf, localChunk_length, ih, List.map_cons]

theorem zipCD_length (off : Nat) (files : List ZEntry) :
    (zipCD off files).length = cdSizeOf files := by
  induction files generalizing off with
  | nil => simp [zipCD, cdSizeOf]
  | cons e es ih => simp [zipCD, cdSizeOf, cdBytes_length, ih, List.map_cons]

/- ### Slice extraction -/

/-- Master extraction lemma: if the stream past position `p` decomposes as
`pre ++ mid ++ post`, the slice of length `mid.length` at `p + pre.length`
is exactly `mid`. -/
theorem byteSlice_of_drop {out pre mid post : List Nat} {p : Nat}
    (h : out.drop p = pre ++ (mid ++ post)) :
    byteSlice out (p + pre.length) mid.length = mid := by
  unfold byteSlice
  rw [← List.drop_drop, h, List.drop_left, List.take_left]

theorem decode_byteSlice_of_drop {out pre post : List Nat} {p k v : Nat}
    (h : out.drop p = pre ++ (leBytes k v ++ post)) (hv : v < 256 ^ k) :
    decodeLE (byteSlice out (p + pre.length) k) = v := by
  have h2 := byteSlice_of_drop h
  rw [leBytes_length] at h2
  rw [h2, decodeLE_leBytes_of_lt hv]

theorem sum_map_take_le (g : ZEntry → Nat) (files : List ZEntry) (i : Nat) :
    ((files.take i).map g).sum ≤ (files.map g).sum := by
  calc ((files.take i).map g).sum
      ≤ ((files.take i).map g).sum + ((files.drop i).map g).sum :=
        Nat.le_add_right _ _
    _ = (files.map g).sum := by
        rw [← List.sum_append, ← List.map_append, List.take_append_drop]

theorem lhOff_le (files : List ZEntry) (i : Nat) :
    lhOff files i ≤ cdStartOf files := sum_map_take_le chunkLen files i

/-- Dropping to the `i`-th local offset exposes the `i`-th local chunk. -/
theorem zipLocal_drop (files : List ZEntry) (i : Nat) (hi : i < files.length) :
    (zipLocal files).drop (lhOff files i) =
      localChunk (files.get ⟨i, hi⟩) ++ zipLocal (files.drop (i + 1)) := by
  induction files generalizing i with
  | nil => simp at hi
  | cons e es ih =>
    cases i with
    | zero => simp [lhOff, zipLocal]
    | succ i =>
      have hi' : i < es.length := Nat.lt_of_succ_lt_succ hi
      have hoff : lhOff (e :: es) (i + 1) = (localChunk e).length + lhOff es i := by
        simp [lhOff, localChunk_length, List.take_succ_cons]
      rw [hoff, zipLocal, List.drop_append, ih i hi']
      simp

/-- Dropping to the `i`-th relative CD offset exposes the `i`-th CD record,
whose stored offset is the accumulated local offset. -/
theorem zipCD_drop (files : List ZEntry) (off i : Nat) (hi : i < files.length) :
    (zipCD off files).drop (((files.take i).map cdLen).sum) =
      cdBytes (files.get ⟨i, hi⟩) (off + lhOff files i) ++
        zipCD (off + lhOff files (i + 1)) (files.drop (i + 1)) := by
  induction files generalizing i off with
  | nil => simp at hi
  | cons e es ih =>
    cases i with
    | zero =>
      simp [zipCD, lhOff, chunkLen, List.take_succ_cons]
    | succ i =>
      have hi' : i < es.length := Nat.lt_of_succ_lt_succ hi
      have hlen : (((e :: es).take (i + 1)).map cdLen).sum =
          (cdBytes e off).length + ((es.take i).map cdLen).sum := by
        simp [List.take_succ_cons, cdBytes_length]
      rw [hlen, zipCD, List.drop_append, ih (off + chunkLen e) i hi']
      have h1 : lhOff (e :: es) (i + 1) = chunkLen e + lhOff es i := by
        simp [lhOff, List.take_succ_cons]
      have h2 : lhOff (e :: es) (i + 1 + 1) = chunkLen e + lhOff es (i + 1) := by
        simp [lhOff, List.take_succ_cons]
      rw [h1, h2]
      simp [Nat.add_assoc]

/-- The archive stream past the `i`-th local offset: the `i`-th local chunk
followed by the rest of the archive. -/
theorem buildZip_drop_lhOff (files : List ZEntry) (i : Nat) (hi : i < files.length) :
    (buildZip files).drop (lhOff files i) =
      localChunk (files.get ⟨i, hi⟩) ++
        (zipLocal (files.drop (i + 1)) ++ (zipCD 0 files ++
          eocdBytes files.length (cdSizeOf files) (cdStartOf files))) := by
  unfold buildZip
  rw [List.append_assoc]
  have hle : lhOff files i ≤ (zipLocal files).length := by
    rw [zipLocal_length]; exact lhOff_le files i
  rw [List.drop_append_of_le_length hle, zipLocal_drop files i hi]
  simp [List.append_assoc]

/-- The archive stream past the `i`-th CD offset: the `i`-th CD record
followed by the rest of the archive. -/
theorem buildZip_drop_cdOff (files : List ZEntry) (i : Nat) (hi : i < files.length) :
    (buildZip files).drop (cdOff files i) =
      cdBytes (files.get ⟨i, hi⟩) (lhOff files i) ++
        (zipCD (lhOff files (i + 1)) (files.drop (i + 1)) ++
          eocdBytes files.length (cdSizeOf files) (cdStartOf files)) := by
  have hstep : (buildZip files).drop (cdOff files i) =
      (zipCD 0 files ++
        eocdBytes files.length (cdSizeOf files) (cdStartOf files)).drop
          (((files.take i).map cdLen).sum) := by
    unfold buildZip
    rw [List.append_assoc]
    have hoff : cdOff files i =
        (zipLocal files).length + ((files.take i).map cdLen).sum := by
      rw [zipLocal_length]; rfl
    rw [hoff, List.drop_append]
  have hle : ((files.take i).map cdLen).sum ≤ (zipCD 0 files).length := by
    rw [zipCD_length]; exact sum_map_take_le cdLen files i
  rw [hstep, List.drop_append_of_le_length hle, zipCD_drop files 0 i hi]
  simp [List.append_assoc]

/-- The archive stream past the end of the central directory is exactly the
end-of-central-directory record. -/
theorem buildZip_drop_eocd (files : List ZEntry) :
    (buildZip files).drop (cdStartOf files + cdSizeOf files) =
      eocdBytes files.length (cdSizeOf files) (cdStartOf files) := by
  unfold buildZip
  have hlen : cdStartOf files + cdSizeOf files =
      (zipLocal files ++ zipCD 0 files).length := by
    rw [List.length_append, zipLocal_length, zipCD_length]
  rw [hlen, List.drop_left]

theorem buildZip_length (files : List ZEntry) :
    (buildZip files).length = cdStartOf files + cdSizeOf files + 22 := by
  unfold buildZip
  rw [List.length_append, List.length_append, zipLocal_length, zipCD_length]
  simp [eocdBytes, fieldsLE_length, eocdFields, Nat.add_assoc]

theorem byteSlice_drop (out : List Nat) (p q k : Nat) :
    byteSlice out (p + q) k = byteSlice (out.drop p) q k := by
  unfold byteSlice
  rw [← List.drop_drop]

theorem byteSlice_start (pre mid post : List Nat) :
    byteSlice (pre ++ (mid ++ post)) pre.length mid.length = mid := by
  unfold byteSlice
  rw [List.drop_left, List.take_left]

/-- Decoding the `j`-th field of a field-list byte block recovers its value
(truncated to the field width). -/
theorem decode_fieldsLE (fs : List (Nat × Nat)) (rest : List Nat) (j : Nat)
    (hj : j < fs.length) :
    decodeLE (byteSlice (fieldsLE fs ++ rest) (((fs.take j).map Prod.fst).sum)
        (fs.get ⟨j, hj⟩).1) =
      (fs.get ⟨j, hj⟩).2 % 256 ^ (fs.get ⟨j, hj⟩).1 := by
  induction fs generalizing rest j with
  | nil => simp at hj
  | cons p ps ih =>
    have hflat : fieldsLE (p :: ps) ++ rest =
        leBytes p.1 p.2 ++ (fieldsLE ps ++ rest) := by
      simp [fieldsLE]
    cases j with
    | zero =>
      rw [hflat]
      have h0 : byteSlice (leBytes p.1 p.2 ++ (fieldsLE ps ++ rest)) 0 p.1 =
          leBytes p.1 p.2 := by
        have := byteSlice_start [] (leBytes p.1 p.2) (fieldsLE ps ++ rest)
        simpa [leBytes_length] using this
      simpa [h0, List.take_zero] using decodeLE_leBytes p.1 p.2
    | succ j =>
      have hj' : j < ps.length := Nat.lt_of_succ_lt_succ hj
      have hsum : (((p :: ps).take (j + 1)).map Prod.fst).sum =
          p.1 + ((ps.take j).map Prod.fst).sum := by
        simp [List.take_succ_cons]
      rw [hflat, hsum]
      have hstep : byteSlice (leBytes p.1 p.2 ++ (fieldsLE ps ++ rest))
          (p.1 + ((ps.take j).map Prod.fst).sum) ((p :: ps).get ⟨j + 1, hj⟩).1 =
          byteSlice (fieldsLE ps ++ rest) (((ps.take j).map Prod.fst).sum)
            (ps.get ⟨j, hj'⟩).1 := by
        unfold byteSlice
        rw [show p.1 + ((ps.take j).map Prod.fst).sum =
            (leBytes p.1 p.2).length + ((ps.take j).map Prod.fst).sum from by
          rw [leBytes_length]]
        rw [List.drop_append]
        simp
      rw [hstep]
      exact ih rest j hj'

/-- The CRC state stays below `2^32` as long as the data is made of bytes. -/
theorem crc32_lt (data : List Nat) (hb : ∀ b ∈ data, b < 256) :
    crc32 data < 4294967296 := by
  unfold crc32
  have hround : ∀ c, c < 4294967296 → crcRound c < 4294967296 := by
    intro c hc
    unfold crcRound
    have hdiv : c / 2 < 4294967296 := Nat.lt_of_le_of_lt (Nat.div_le_self c 2) hc
    split
    · exact Nat.xor_lt_two_pow (n := 32) hdiv (by norm_num)
    · exact hdiv
  have hiter : ∀ (m : Nat) c, c < 4294967296 → crcRound^[m] c < 4294967296 := by
    intro m
    induction m with
    | zero => intro c hc; simpa using hc
    | succ m ihm =>
      intro c hc
      rw [Function.iterate_succ_apply]
      exact ihm _ (hround c hc)
  have hfold : ∀ (l : List Nat) c, (∀ b ∈ l, b < 256) → c < 4294967296 →
      l.foldl crcByte c < 4294967296 := by
    intro l
    induction l with
    | nil => intro c _ hc; simpa using hc
    | cons b bs ihl =>
      intro c hbs hc
      rw [List.foldl_cons]
      refine ihl _ (fun x hx => hbs x (List.mem_cons_of_mem _ hx)) ?_
      unfold crcByte
      refine hiter 8 _ ?_
      exact Nat.xor_lt_two_pow (n := 32) hc
        (Nat.lt_trans (hbs b (List.mem_cons_self _ _)) (by norm_num))
  exact Nat.xor_lt_two_pow (n := 32)
    (hfold data 0xffffffff hb (by norm_num)) (by norm_num)

/-- Stream-level field read: if the stream past `p` starts with a field
block, the decoded slice at the field's accumulated offset is its value. -/
theorem decode_field_at (out : List Nat) (p : Nat) (fs : List (Nat × Nat))
    (rest : List Nat) (hdrop : out.drop p = fieldsLE fs ++ rest) (j : Nat)
    {d k v : Nat}
    (hd : ((fs.take j).map Prod.fst).sum = d)
    (hkv : fs.get? j = some (k, v))
    (hlt : v < 256 ^ k) :
    decodeLE (byteSlice out (p + d) k) = v := by
  obtain ⟨hj, hget⟩ := List.get?_eq_some.mp hkv
  subst hd
  have h := decode_fieldsLE fs rest j hj
  rw [hget] at h
  rw [byteSlice_drop, hdrop]
  simpa [Nat.mod_eq_of_lt hlt] using h

/-- C1: for every entry list within the ZIP format's numeric limits, the
archive byte stream produced by `buildZip` holds, per entry in entry order, a
local file header at offset `lhOff` with signature 0x04034b50, compression
method 0 (stored), a stored CRC-32 equal to the reflected CRC-32 of the raw
data (polynomial 0xEDB88320, initial and final XOR 0xFFFFFFFF), equal
compressed and uncompressed sizes, the name bytes at offset 30 of the header
and the raw data after them; then per entry a central-directory record at
`cdOff` with signature 0x02014b50, method 0, the same CRC and its entry's
local-header offset; and finally a single end-of-central-directory record
whose two entry counts both equal the number of entries and whose recorded
central-directory size and start equal the actual size and offset of the
emitted central-directory records. -/
theorem buildZip_structure (files : List ZEntry)
    (hn : files.length < 65536)
    (hb : ∀ e ∈ files, e.dataBytes.length < 4294967296 ∧
      e.nameBytes.length < 65536 ∧ ∀ b ∈ e.dataBytes, b < 256)
    (hst : cdStartOf files < 4294967296)
    (hsz : cdSizeOf files < 4294967296) :
    (∀ i (hi : i < files.length),
      decodeLE (byteSlice (buildZip files) (lhOff files i) 4) = 0x04034b50 ∧
      decodeLE (byteSlice (buildZip files) (lhOff files i + 8) 2) = 0 ∧
      decodeLE (byteSlice (buildZip files) (lhOff files i + 14) 4) =
        crc32 (files.get ⟨i, hi⟩).dataBytes ∧
      decodeLE (byteSlice (buildZip files) (lhOff files i + 18) 4) =
        (files.get ⟨i, hi⟩).dataBytes.length ∧
      decodeLE (byteSlice (buildZip files) (lhOff files i + 22) 4) =
        (files.get ⟨i, hi⟩).dataBytes.length ∧
      decodeLE (byteSlice (buildZip files) (lhOff files i + 26) 2) =
        (files.get ⟨i, hi⟩).nameBytes.length ∧
      byteSlice (buildZip files) (lhOff files i + 30)
        (files.get ⟨i, hi⟩).nameBytes.length = (files.get ⟨i, hi⟩).nameBytes ∧
      byteSlice (buildZip files) (lhOff files i + (30 +
          (files.get ⟨i, hi⟩).nameBytes.length))
        (files.get ⟨i, hi⟩).dataBytes.length = (files.get ⟨i, hi⟩).dataBytes) ∧
    (∀ i (hi : i < files.length),
      decodeLE (byteSlice (buildZip files) (cdOff files i) 4) = 0x02014b50 ∧
      decodeLE (byteSlice (buildZip files) (cdOff files i + 10) 2) = 0 ∧
      decodeLE (byteSlice (buildZip files) (cdOff files i + 16) 4) =
        crc32 (files.get ⟨i, hi⟩).dataBytes ∧
      decodeLE (byteSlice (buildZip files) (cdOff files i + 42) 4) =
        lhOff files i) ∧
    (decodeLE (byteSlice (buildZip files)
        (cdStartOf files + cdSizeOf files) 4) = 0x06054b50 ∧
     decodeLE (byteSlice (buildZip files)
        (cdStartOf files + cdSizeOf files + 8) 2) = files.length ∧
     decodeLE (byteSlice (buildZip files)
        (cdStartOf files + cdSizeOf files + 10) 2) = files.length ∧
     decodeLE (byteSlice (buildZip files)
        (cdStartOf files + cdSizeOf files + 12) 4) = cdSizeOf files ∧
     decodeLE (byteSlice (buildZip files)
        (cdStartOf files + cdSizeOf files + 16) 4) = cdStartOf files ∧
     (buildZip files).length = cdStartOf files + cdSizeOf files + 22) := by
  refine ⟨?_, ?_, ?_⟩
  · intro i hi
    obtain ⟨hd1, hd2, hd3⟩ := hb (files.get ⟨i, hi⟩) (List.get_mem files i hi)
    have hcrc := crc32_lt (files.get ⟨i, hi⟩).dataBytes hd3
    set e := files.get ⟨i, hi⟩ with he
    set R := zipLocal (files.drop (i + 1)) ++ (zipCD 0 files ++
      eocdBytes files.length (cdSizeOf files) (cdStartOf files)) with hR
    have hform : (buildZip files).drop (lhOff files i) =
        fieldsLE (lhFields e) ++ (e.nameBytes ++ (e.dataBytes ++ R)) := by
      rw [buildZip_drop_lhOff files i hi, hR, ← he]
      simp [localChunk, lhBytes, List.append_assoc]
    have hfield := fun j d k v hd hkv hlt =>
      @decode_field_at (buildZip files) (lhOff files i) (lhFields e)
        (e.nameBytes ++ (e.dataBytes ++ R)) hform j d k v hd hkv hlt
    refine ⟨?_, ?_, ?_, ?_, ?_, ?_, ?_, ?_⟩
    · exact hfield 0 0 4 0x04034b50 (by simp [lhFields]) (by simp [lhFields])
        (by norm_num)
    · exact hfield 3 8 2 0 (by simp [lhFields]) (by simp [lhFields])
        (by norm_num)
    · exact hfield 6 14 4 (crc32 e.dataBytes) (by simp [lhFields])
        (by simp [lhFields]) hcrc
    · exact hfield 7 18 4 e.dataBytes.length (by simp [lhFields])
        (by simp [lhFields]) hd1
    · exact hfield 8 22 4 e.dataBytes.length (by simp [lhFields])
        (by simp [lhFields]) hd1
    · exact hfield 9 26 2 e.nameBytes.length (by simp [lhFields])
        (by simp [lhFields]) hd2
    · rw [show lhOff files i + 30 =
            lhOff files i + (fieldsLE (lhFields e)).length from by
          rw [fieldsLE_length]; rfl,
        byteSlice_drop, hform]
      exact byteSlice_start _ _ _
    · rw [show lhOff files i + (30 + e.nameBytes.length) =
            lhOff files i + (fieldsLE (lhFields e) ++ e.nameBytes).length from by
          rw [List.length_append, fieldsLE_length]; rfl,
        byteSlice_drop, hform, (List.append_assoc _ _ _).symm]
      exact byteSlice_start _ _ _
  · intro i hi
    obtain ⟨hd1, hd2, hd3⟩ := hb (files.get ⟨i, hi⟩) (List.get_mem files i hi)
    have hcrc := crc32_lt (files.get ⟨i, hi⟩).dataBytes hd3
    have hoff : lhOff files i < 4294967296 :=
      Nat.lt_of_le_of_lt (lhOff_le files i) hst
    set e := files.get ⟨i, hi⟩ with he
    set R₂ := zipCD (lhOff files (i + 1)) (files.drop (i + 1)) ++
      eocdBytes files.length (cdSizeOf files) (cdStartOf files) with hR₂
    have hform : (buildZip files).drop (cdOff files i) =
        fieldsLE (cdFields e (lhOff files i)) ++ (e.nameBytes ++ R₂) := by
      rw [buildZip_drop_cdOff files i hi, hR₂, ← he]
      simp [cdBytes, List.append_assoc]
    have hfield := fun j d k v hd hkv hlt =>
      @decode_field_at (buildZip files) (cdOff files i)
        (cdFields e (lhOff files i)) (e.nameBytes ++ R₂) hform j d k v hd hkv hlt
    refine ⟨?_, ?_, ?_, ?_⟩
    · exact hfield 0 0 4 0x02014b50 (by simp [cdFields]) (by simp [cdFields])
        (by norm_num)
    · exact hfield 4 10 2 0 (by simp [cdFields]) (by simp [cdFields])
        (by norm_num)
    · exact hfield 7 16 4 (crc32 e.dataBytes) (by simp [cdFields])
        (by simp [cdFields]) hcrc
    · exact hfield 16 42 4 (lhOff files i) (by simp [cdFields])
        (by simp [cdFields]) hoff
  · have hform : (buildZip files).drop (cdStartOf files + cdSizeOf files) =
        fieldsLE (eocdFields files.length (cdSizeOf files) (cdStartOf files))
          ++ [] := by
      rw [buildZip_drop_eocd]
      simp [eocdBytes]
    have hfield := fun j d k v hd hkv hlt =>
      @decode_field_at (buildZip files) (cdStartOf files + cdSizeOf files)
        (eocdFields files.length (cdSizeOf files) (cdStartOf files)) []
        hform j d k v hd hkv hlt
    refine ⟨?_, ?_, ?_, ?_, ?_, buildZip_length files⟩
    · exact hfield 0 0 4 0x06054b50 (by simp [eocdFields])
        (by simp [eocdFields]) (by norm_num)
    · exact hfield 3 8 2 files.length (by simp [eocdFields])
        (by simp [eocdFields]) hn
    · exact hfield 4 10 2 files.length (by simp [eocdFields])
        (by simp [eocdFields]) hn
    · exact hfield 5 12 4 (cdSizeOf files) (by simp [eocdFields])
        (by simp [eocdFields]) hsz
    · exact hfield 6 16 4 (cdStartOf files) (by simp [eocdFields])
        (by simp [eocdFields]) hst

/-- A concrete one-entry archive used to witness `buildZip_structure`. -/
def wzipFiles : List ZEntry := [⟨"a", ZContent.raw [7, 9]⟩]

/-- `buildZip_structure` instantiated at `wzipFiles`, with every hypothesis
discharged by evaluation. -/
theorem buildZip_structure_witness :
    (∀ i (hi : i < wzipFiles.length),
      decodeLE (byteSlice (buildZip wzipFiles) (lhOff wzipFiles i) 4) =
        0x04034b50 ∧
      decodeLE (byteSlice (buildZip wzipFiles) (lhOff wzipFiles i + 8) 2) = 0 ∧
      decodeLE (byteSlice (buildZip wzipFiles) (lhOff wzipFiles i + 14) 4) =
        crc32 (wzipFiles.get ⟨i, hi⟩).dataBytes ∧
      decodeLE (byteSlice (buildZip wzipFiles) (lhOff wzipFiles i + 18) 4) =
        (wzipFiles.get ⟨i, hi⟩).dataBytes.length ∧
      decodeLE (byteSlice (buildZip wzipFiles) (lhOff wzipFiles i + 22) 4) =
        (wzipFiles.get ⟨i, hi⟩).dataBytes.length ∧
      decodeLE (byteSlice (buildZip wzipFiles) (lhOff wzipFiles i + 26) 2) =
        (wzipFiles.get ⟨i, hi⟩).nameBytes.length ∧
      byteSlice (buildZip wzipFiles) (lhOff wzipFiles i + 30)
        (wzipFiles.get ⟨i, hi⟩).nameBytes.length =
        (wzipFiles.get ⟨i, hi⟩).nameBytes ∧
      byteSlice (buildZip wzipFiles) (lhOff wzipFiles i + (30 +
          (wzipFiles.get ⟨i, hi⟩).nameBytes.length))
        (wzipFiles.get ⟨i, hi⟩).dataBytes.length =
        (wzipFiles.get ⟨i, hi⟩).dataBytes) ∧
    (∀ i (hi : i < wzipFiles.length),
      decodeLE (byteSlice (buildZip wzipFiles) (cdOff wzipFiles i) 4) =
        0x02014b50 ∧
      decodeLE (byteSlice (buildZip wzipFiles) (cdOff wzipFiles i + 10) 2) = 0 ∧
      decodeLE (byteSlice (buildZip wzipFiles) (cdOff wzipFiles i + 16) 4) =
        crc32 (wzipFiles.get ⟨i, hi⟩).dataBytes ∧
      decodeLE (byteSlice (buildZip wzipFiles) (cdOff wzipFiles i + 42) 4) =
        lhOff wzipFiles i) ∧
    (decodeLE (byteSlice (buildZip wzipFiles)
        (cdStartOf wzipFiles + cdSizeOf wzipFiles) 4) = 0x06054b50 ∧
     decodeLE (byteSlice (buildZip wzipFiles)
        (cdStartOf wzipFiles + cdSizeOf wzipFiles + 8) 2) = wzipFiles.length ∧
     decodeLE (byteSlice (buildZip wzipFiles)
        (cdStartOf wzipFiles + cdSizeOf wzipFiles + 10) 2) = wzipFiles.length ∧
     decodeLE (byteSlice (buildZip wzipFiles)
        (cdStartOf wzipFiles + cdSizeOf wzipFiles + 12) 4) = cdSizeOf wzipFiles ∧
     decodeLE (byteSlice (buildZip wzipFiles)
        (cdStartOf wzipFiles + cdSizeOf wzipFiles + 16) 4) =
        cdStartOf wzipFiles ∧
     (buildZip wzipFiles).length =
        cdStartOf wzipFiles + cdSizeOf wzipFiles + 22) :=
  buildZip_structure wzipFiles (by decide) (by decide) (by decide) (by decide)

/- ### Dynamic JSON values

`JVal` models the values produced by `JSON.parse`. JSON numbers are modeled
by their integer part (sign, integer digits); the renderer and the importers
only consult integer-valued numeric fields, and number syntax (fraction,
exponent, leading-zero rule) is still checked during parsing. -/

inductive JVal where
  | null
  | bool (b : Bool)
  | num (n : Int)
  | str (s : String)
  | arr (xs : List JVal)
  | obj (fields : List (String × JVal))

/-- JS property read on a parsed JSON value. `JSON.parse` keeps the last of
duplicate keys, so the fold lets later fields overwrite earlier ones.
Reads on non-objects give `undefined` (`none`). -/
def getField : JVal → String → Option JVal
  | JVal.obj fields, key =>
      fields.foldl (fun acc p => if p.1 == key then some p.2 else acc) none
  | _, _ => none

/-- JS truthiness of a parsed JSON value. -/
def truthy : JVal → Bool
  | JVal.null => false
  | JVal.bool b => b
  | JVal.num n => !(n == 0)
  | JVal.str s => !(s == "")
  | JVal.arr _ => true
  | JVal.obj _ => true

def quoteChar : Char := Char.ofNat 34

def backslashChar : Char := Char.ofNat 92

def aposChar : Char := Char.ofNat 39

def openBraceChar : Char := Char.ofNat 123

def closeBraceChar : Char := Char.ofNat 125

/-- The four JSON whitespace characters. -/
def isJsonWs (c : Char) : Bool :=
  c == ' ' || c == Char.ofNat 9 || c == Char.ofNat 10 || c == Char.ofNat 13

/-- Hexadecimal digit test for `\uXXXX` escapes. -/
def isHexChar (c : Char) : Bool :=
  c.isDigit || (97 ≤ c.toNat && c.toNat ≤ 102) || (65 ≤ c.toNat && c.toNat ≤ 70)

def skipWs : List Char → List Char
  | [] => []
  | c :: cs => if isJsonWs c then skipWs cs else c :: cs

/-- Parse the body of a JSON string (after the opening quote), returning the
characters and the rest of the input. Lone `\\uXXXX` surrogate halves are not
recombined (they do not round-trip through `Char` anyway). -/
def parseStrChars : List Char → Option (List Char × List Char)
  | [] => none
  | c :: cs =>
    if c == quoteChar then some ([], cs)
    else if c == backslashChar then
      match cs with
      | [] => none
      | e :: cs2 =>
        if e == quoteChar then
          (parseStrChars cs2).map (fun p => (quoteChar :: p.1, p.2))
        else if e == backslashChar then
          (parseStrChars cs2).map (fun p => (backslashChar :: p.1, p.2))
        else if e == '/' then
          (parseStrChars cs2).map (fun p => ('/' :: p.1, p.2))
        else if e == 'b' then
          (parseStrChars cs2).map (fun p => (Char.ofNat 8 :: p.1, p.2))
        else if e == 'f' then
          (parseStrChars cs2).map (fun p => (Char.ofNat 12 :: p.1, p.2))
        else if e == 'n' then
          (parseStrChars cs2).map (fun p => (Char.ofNat 10 :: p.1, p.2))
        else if e == 'r' then
          (parseStrChars cs2).map (fun p => (Char.ofNat 13 :: p.1, p.2))
        else if e == 't' then
          (parseStrChars cs2).map (fun p => (Char.ofNat 9 :: p.1, p.2))
        else if e == 'u' then
          match cs2 with
          | h1 :: h2 :: h3 :: h4 :: cs3 =>
            if isHexChar h1 && isHexChar h2 && isHexChar h3 && isHexChar h4
            then
              let hv := fun (c : Char) =>
                if c.isDigit then c.toNat - 48
                else if c.toNat ≥ 97 then c.toNat - 87 else c.toNat - 55
              let code := ((hv h1 * 16 + hv h2) * 16 + hv h3) * 16 + hv h4
              (parseStrChars cs3).map (fun p => (Char.ofNat code :: p.1, p.2))
            else none
          | _ => none
        else none
    else if c.toNat < 32 then none
    else (parseStrChars cs).map (fun p => (c :: p.1, p.2))

/-- Parse a JSON number per the JSON grammar (optional minus, integer part
with the leading-zero rule, optional fraction and exponent); the value kept
is the signed integer part. -/
def parseNumber (cs : List Char) : Option (Int × List Char) :=
  let negAndRest : Bool × List Char :=
    match cs with
    | c :: rest => if c == '-' then (true, rest) else (false, cs)
    | [] => (false, cs)
  let neg := negAndRest.1
  let cs1 := negAndRest.2
  match cs1 with
  | [] => none
  | d :: _ =>
    if !d.isDigit then none
    else
      let digits := cs1.takeWhile Char.isDigit
      let cs2 := cs1.dropWhile Char.isDigit
      if digits.length > 1 && digits.headD ' ' == '0' then none
      else
        let intVal : Nat := digits.foldl (fun a c => a * 10 + (c.toNat - 48)) 0
        let afterFrac : Option (List Char) :=
          match cs2 with
          | c :: rest =>
            if c == '.' then
              let fd := rest.takeWhile Char.isDigit
              if fd.isEmpty then none else some (rest.dropWhile Char.isDigit)
            else some cs2
          | [] => some cs2
        match afterFrac with
        | none => none
        | some cs3 =>
          let afterExp : Option (List Char) :=
            match cs3 with
            | c :: rest =>
              if c == 'e' || c == 'E' then
                let rest2 :=
                  match rest with
                  | sgn :: r2 => if sgn == '+' || sgn == '-' then r2 else rest
                  | [] => rest
                let ed := rest2.takeWhile Char.isDigit
                if ed.isEmpty then none
                else some (rest2.dropWhile Char.isDigit)
              else some cs3
            | [] => some cs3
          afterExp.map
            (fun cs4 => ((if neg then -(intVal : Int) else (intVal : Int)), cs4))

mutual

/-- Fuel-indexed JSON value parser (`JSON.parse` grammar). -/
def parseVal : Nat → List Char → Option (JVal × List Char)
  | 0, _ => none
  | fuel + 1, cs =>
    match skipWs cs with
    | [] => none
    | c :: rest =>
      if c == quoteChar then
        (parseStrChars rest).map (fun p => (JVal.str (String.mk p.1), p.2))
      else if c == 'n' then
        match rest with
        | 'u' :: 'l' :: 'l' :: r => some (JVal.null, r)
        | _ => none
      else if c == 't' then
        match rest with
        | 'r' :: 'u' :: 'e' :: r => some (JVal.bool true, r)
        | _ => none
      else if c == 'f' then
        match rest with
        | 'a' :: 'l' :: 's' :: 'e' :: r => some (JVal.bool false, r)
        | _ => none
      else if c == '[' then
        match skipWs rest with
        | [] => none
        | c2 :: r2 =>
          if c2 == ']' then some (JVal.arr [], r2)
          else
            (parseArrItems fuel (c2 :: r2)).map
              (fun p => (JVal.arr p.1, p.2))
      else if c == openBraceChar then
        match skipWs rest with
        | [] => none
        | c2 :: r2 =>
          if c2 == closeBraceChar then some (JVal.obj [], r2)
          else
            (parseObjItems fuel (c2 :: r2)).map
              (fun p => (JVal.obj p.1, p.2))
      else
        (parseNumber (c :: rest)).map (fun p => (JVal.num p.1, p.2))

/-- Comma-separated array items up to the closing bracket. -/
def parseArrItems : Nat → List Char → Option (List JVal × List Char)
  | 0, _ => none
  | fuel + 1, cs =>
    match parseVal fuel cs with
    | none => none
    | some (v, rest) =>
      match skipWs rest with
      | [] => none
      | c :: r2 =>
        if c == ',' then
          (parseArrItems fuel r2).map (fun p => (v :: p.1, p.2))
        else if c == ']' then some ([v], r2)
        else none

/-- Comma-separated `"key": value` pairs up to the closing brace. -/
def parseObjItems : Nat → List Char → Option (List (String × JVal) × List Char)
  | 0, _ => none
  | fuel + 1, cs =>
    match skipWs cs with
    | [] => none
    | c :: rest =>
      if c == quoteChar then
        match parseStrChars rest with
        | none => none
        | some (key, r2) =>
          match skipWs r2 with
          | [] => none
          | c2 :: r3 =>
            if c2 == ':' then
              match parseVal fuel r3 with
              | none => none
              | some (v, r4) =>
                match skipWs r4 with
                | [] => none
                | c3 :: r5 =>
                  if c3 == ',' then
                    (parseObjItems fuel r5).map
                      (fun p => ((String.mk key, v) :: p.1, p.2))
                  else if c3 == closeBraceChar then
                    some ([(String.mk key, v)], r5)
                  else none
            else none
      else none

end

/-- `JSON.parse`: parse one value, then require only whitespace after it.
`none` is a thrown `SyntaxError`. -/
def parseJson (s : String) : Option JVal :=
  match parseVal (4 * s.length + 16) s.data with
  | some (v, rest) => if (skipWs rest).isEmpty then some v else none
  | none => none

/- ### HTML renderer (`jsonToHTML`, `renderNode`, `escHtml`) -/

/-- `str.replace(/c/g, rep)` for a single-character pattern. -/
def replaceAllChar (c : Char) (rep : List Char) (l : List Char) : List Char :=
  (l.map (fun x => if x == c then rep else [x])).flatten

/-- `escHtml` of `src/bookeditor/src/utils/export/json.ts`: four sequential
global replacements, in source order (`&`, `<`, `>`, `"`). -/
def escHtml (s : String) : String :=
  String.mk
    (replaceAllChar quoteChar ("&quot;".data)
      (replaceAllChar '>' ("&gt;".data)
        (replaceAllChar '<' ("&lt;".data)
          (replaceAllChar '&' ("&amp;".data) s.data))))

mutual

/-- Structural size of a JSON value, independent of string contents; used
only to provision recursion fuel for the renderer. -/
def jsize : JVal → Nat
  | JVal.arr xs => 1 + jsizeL xs
  | JVal.obj fs => 1 + jsizeF fs
  | _ => 1

def jsizeL : List JVal → Nat
  | [] => 0
  | x :: xs => 1 + jsize x + jsizeL xs

def jsizeF : List (String × JVal) → Nat
  | [] => 0
  | p :: ps => 1 + jsize p.2 + jsizeF ps

end

mutual

/-- JS template-literal stringification of a value (`${v}`); array elements
that are `null` display as the empty string, as in `Array.prototype.join`. -/
def jsDisplay : JVal → String
  | JVal.null => "null"
  | JVal.bool b => if b then "true" else "false"
  | JVal.num n => toString n
  | JVal.str s => s
  | JVal.arr xs => String.intercalate "," (jsDisplayItems xs)
  | JVal.obj _ => "[object Object]"

def jsDisplayItems : List JVal → List String
  | [] => []
  | JVal.null :: xs => "" :: jsDisplayItems xs
  | x :: xs => jsDisplay x :: jsDisplayItems xs

end

/-- `mark.type === t` after the mark was checked not to be `null`. -/
def isMarkType (mark : JVal) (t : String) : Bool :=
  match getField mark "type" with
  | some (JVal.str s) => s == t
  | _ => false

mutual

/-- `renderNode` of `src/bookeditor/src/utils/export/json.ts`, fuel-indexed.
`none` is a thrown `TypeError` (property access on `null`, or `escHtml` on a
non-string image attribute); it is caught by `jsonToHTML`. -/
def renderNode : Nat → JVal → Option String
  | 0, _ => none
  | fuel + 1, node =>
    match node with
    | JVal.null => none
    | _ => do
      let content ←
        match getField node "content" with
        | some (JVal.arr xs) => renderNodes fuel xs
        | _ => some ""
      let text :=
        match getField node "text" with
        | some (JVal.str s) => escHtml s
        | _ => ""
      let attrs :=
        match getField node "attrs" with
        | some JVal.null => JVal.obj []
        | some v => v
        | none => JVal.obj []
      let marks :=
        match getField node "marks" with
        | some (JVal.arr ms) => ms
        | _ => []
      let result ← marks.foldlM
        (fun acc mark =>
          match mark with
          | JVal.null => none
          | _ =>
            if isMarkType mark "bold" then
              some ("<strong>" ++ acc ++ "</strong>")
            else if isMarkType mark "italic" then
              some ("<em>" ++ acc ++ "</em>")
            else if isMarkType mark "underline" then
              some ("<u>" ++ acc ++ "</u>")
            else some acc)
        text
      let textAlign :=
        match getField attrs "textAlign" with
        | some (JVal.str s) => s
        | _ => ""
      let alignStyle :=
        if textAlign == "" then ""
        else " style=\"text-align: " ++ escHtml textAlign ++ ";\""
      match getField node "type" with
      | some (JVal.str t) =>
        if t == "paragraph" then
          let paragraph := if content == "" then result else content
          if paragraph == "" then
            some ("<p class=\"blank-paragraph\"" ++ alignStyle ++ ">&nbsp;</p>")
          else some ("<p" ++ alignStyle ++ ">" ++ paragraph ++ "</p>")
        else if t == "heading" then
          let lvl :=
            match getField attrs "level" with
            | none => "2"
            | some JVal.null => "2"
            | some v => jsDisplay v
          some ("<h" ++ lvl ++ alignStyle ++ ">" ++ content ++ "</h" ++ lvl
            ++ ">")
        else if t == "bulletList" then some ("<ul>" ++ content ++ "</ul>")
        else if t == "orderedList" then some ("<ol>" ++ content ++ "</ol>")
        else if t == "listItem" then some ("<li>" ++ content ++ "</li>")
        else if t == "blockquote" then
          some ("<blockquote>" ++ content ++ "</blockquote>")
        else if t == "horizontalRule" then
          some "<hr class=\"scene-break\"/>"
        else if t == "hardBreak" then some "<br/>"
        else if t == "text" then some result
        else if t == "image" then do
          let srcRaw := (getField node "attrs").bind (fun a => getField a "src")
          let src ←
            match srcRaw with
            | none => some ""
            | some JVal.null => some ""
            | some (JVal.str s) => some s
            | some _ => none
          let altRaw := (getField node "attrs").bind (fun a => getField a "alt")
          let alt ←
            match altRaw with
            | none => some ""
            | some JVal.null => some ""
            | some (JVal.str s) => some s
            | some _ => none
          some ("<img src=\"" ++ escHtml src ++ "\" alt=\"" ++ escHtml alt
            ++ "\"/>")
        else some (if content == "" then result else content)
      | _ => some (if content == "" then result else content)

/-- `renderNodes`: map `renderNode` over the nodes and join. -/
def renderNodes : Nat → List JVal → Option String
  | 0, _ => none
  | _ + 1, [] => some ""
  | fuel + 1, x :: xs => do
    let h ← renderNode fuel x
    let t ← renderNodes fuel xs
    pure (h ++ t)

end

/-- The renderer at adequate fuel (fuel exceeds the value's structural
size, so the fuel counter never runs out on the value's own recursion). -/
def renderNodeJS (node : JVal) : Option String :=
  renderNode (jsize node + 1) node

def renderNodesJS (xs : List JVal) : Option String :=
  renderNodes (jsizeL xs + 1) xs

/-- `jsonToHTML` of `src/bookeditor/src/utils/export/json.ts`. The `catch`
branch is reached when `JSON.parse` throws, when `doc.content` is read on a
parsed `null`, when `.map` is called on a truthy non-array `content`, or
when rendering itself throws. -/
def jsonToHTML (jsonStr title : String) (includeHeading : Bool) : String :=
  let heading := if includeHeading then "<h1>" ++ escHtml title ++ "</h1>"
    else ""
  if jsonStr == "" then heading ++ "<p class=\"blank-paragraph\">&nbsp;</p>"
  else
    match parseJson jsonStr with
    | none => heading ++ "<p>" ++ escHtml jsonStr ++ "</p>"
    | some JVal.null => heading ++ "<p>" ++ escHtml jsonStr ++ "</p>"
    | some doc =>
      match getField doc "content" with
      | some (JVal.arr xs) =>
        match renderNodesJS xs with
        | some html => heading ++ html
        | none => heading ++ "<p>" ++ escHtml jsonStr ++ "</p>"
      | some v =>
        if truthy v then heading ++ "<p>" ++ escHtml jsonStr ++ "</p>"
        else heading
      | none => heading

/- ### Data model (`src/bookeditor/src/types/index.ts`) -/

inductive SectionType where
  | frontmatter
  | chapter
  | backmatter
deriving DecidableEq

inductive Template where
  | reedsy
  | classic
  | romance
deriving DecidableEq

inductive NoteColor where
  | yellow
  | blue
  | green
  | pink
deriving DecidableEq

structure Note where
  id : String
  content : String
  pinned : Bool
  color : NoteColor
  createdAt : String
deriving DecidableEq

structure Section where
  id : String
  type : SectionType
  title : String
  subtitle : Option String
  content : String
  order : Int
  notes : List Note
deriving DecidableEq

structure DailyGoal where
  date : String
  target : Int
  wordsWritten : Int
deriving DecidableEq

structure Book where
  id : String
  title : String
  author : String
  template : Template
  sections : List Section
  coverImage : Option String
  paragraphIndent : Bool
  chapterNumbers : Option Bool
  dailyGoal : Int
  wordCountGoal : Int
  goalHistory : List DailyGoal
  createdAt : String
  updatedAt : String
deriving DecidableEq

/-- The string form of the template enum, as stored in JSON. -/
def Template.jsName : Template → String
  | Template.reedsy => "reedsy"
  | Template.classic => "classic"
  | Template.romance => "romance"

/-- The string form of the section type, as stored in JSON. -/
def SectionType.jsName : SectionType → String
  | SectionType.frontmatter => "frontmatter"
  | SectionType.chapter => "chapter"
  | SectionType.backmatter => "backmatter"

/- ### `buildBookCSS` (`src/bookeditor/src/utils/export/json.ts`, 227-290) -/

def bodyFonts : Template → String
  | Template.reedsy => "Merriweather, Georgia, serif"
  | Template.classic => "Times New Roman, Times, serif"
  | Template.romance => "Garamond, \"EB Garamond\", Georgia, serif"

def titleFonts : Template → String
  | Template.reedsy => "Lato, Arial, sans-serif"
  | Template.classic => "Times New Roman, Times, serif"
  | Template.romance => "Garamond, \"EB Garamond\", Georgia, serif"

def titleExtra : Template → String
  | Template.reedsy =>
    "text-transform: uppercase; letter-spacing: 0.05em; font-weight: 700;"
  | Template.classic =>
    "text-transform: uppercase; letter-spacing: 0.1em; font-weight: 700;"
  | Template.romance =>
    "font-style: italic; font-weight: 400; letter-spacing: 0.02em;"

def titleSizes : Template → String
  | Template.reedsy => "1.9em"
  | Template.classic => "1.8em"
  | Template.romance => "2.1em"

def sizes : Template → String
  | Template.reedsy => "1.1em"
  | Template.classic => "1.2em"
  | Template.romance => "1.05em"

def lineHeights : Template → String
  | Template.reedsy => "1.7"
  | Template.classic => "2.0"
  | Template.romance => "1.6"

/-- The `pStyle` branch of `buildBookCSS`: the sibling-dependent indent
rules when paragraph indentation is on, a uniform bottom margin otherwise. -/
def pStyleOf (paragraphIndent : Bool) : String :=
  if paragraphIndent then
    "p \x7b text-indent: 0; margin: 0; \x7d\n" ++
    "p + p \x7b text-indent: 1.5em; \x7d\n" ++
    "h1 + p, h2 + p, h3 + p, hr + p, hr.scene-break + p, blockquote + p, " ++
    "ul + p, ol + p \x7b text-indent: 0; \x7d"
  else "p \x7b text-indent: 0; margin-bottom: 0.8em; \x7d"

/-- `buildBookCSS`, line for line from the source template literal. -/
def buildBookCSS (template : Template) (paragraphIndent : Bool) : String :=
  "\nbody \x7b font-family: " ++ bodyFonts template ++ "; font-size: " ++
  sizes template ++ "; line-height: " ++ lineHeights template ++
  "; margin: 1.5em 2em; color: #1a1a1a; text-align: justify; " ++
  "hyphens: auto; \x7d\n" ++
  "h1 \x7b font-family: " ++ titleFonts template ++ "; font-size: " ++
  titleSizes template ++ "; text-align: center; margin: 2em auto 1em; " ++
  titleExtra template ++ " \x7d\n" ++
  "h2 \x7b font-size: 1.4em; margin: 1.5em 0 0.5em; \x7d\n" ++
  pStyleOf paragraphIndent ++ "\n" ++
  "p.blank-paragraph \x7b text-indent: 0 !important; margin: 0; \x7d\n" ++
  "blockquote \x7b margin: 1em 2em; font-style: italic; \x7d\n" ++
  "hr.scene-break \x7b border: none; text-align: center; margin: 2em auto; \x7d\n" ++
  "hr.scene-break::after \x7b content: \"* * *\"; font-style: normal; \x7d\n" ++
  "img \x7b max-width: 100%; height: auto; display: block; margin: 1em auto; \x7d\n" ++
  "\n/* Chapter number */\n" ++
  ".chapter-number \x7b text-align: center; font-size: 0.85em; color: #9ca3af; " ++
  "letter-spacing: 0.12em; margin: 2em 0 0.2em 0; text-indent: 0 !important; \x7d\n" ++
  "\n/* Title page */\n" ++
  ".title-page-auto \x7b min-height: 75vh; display: flex; " ++
  "flex-direction: column; justify-content: center; align-items: center; " ++
  "text-align: center; \x7d\n" ++
  ".title-page-author \x7b margin: 0 0 1.5em 0; text-transform: uppercase; " ++
  "letter-spacing: 0.08em; font-size: 0.9em; color: #57534e; " ++
  "text-indent: 0 !important; \x7d\n" ++
  ".title-page-book-title \x7b margin: 0; \x7d\n" ++
  "\n/* Epigraph */\n" ++
  ".epigraph-section \x7b display: flex; flex-direction: column; " ++
  "justify-content: center; min-height: 80vh; padding: 10% 0; \x7d\n" ++
  ".epigraph-block \x7b margin-left: 22%; max-width: 62%; \x7d\n" ++
  ".epigraph-quote \x7b font-style: italic; text-indent: 0 !important; " ++
  "margin: 0 0 0.65em 0; \x7d\n" ++
  ".epigraph-attribution \x7b text-align: right; font-style: normal; " ++
  "font-size: 0.88em; color: #57534e; text-indent: 0 !important; " ++
  "margin: 0; \x7d\n"

/- ### EPUB assembly (`src/bookeditor/src/utils/export/json.ts`, 43-517)

`String.trim`/`String.toLower` model the JS `trim()`/`toLowerCase()` calls
(they agree on ASCII titles; the comparisons below are against ASCII
constants). -/

/-- Whitespace removed by JS `String.prototype.trim` (the ASCII portion,
plus no-break space; the titles compared against are ASCII). -/
def isJsTrimWs (c : Char) : Bool :=
  c.toNat == 9 || c.toNat == 10 || c.toNat == 11 || c.toNat == 12 ||
  c.toNat == 13 || c.toNat == 32 || c.toNat == 160

/-- JS `s.trim()`. -/
def jsTrim (s : String) : String :=
  String.mk (((s.data.dropWhile isJsTrimWs).reverse.dropWhile
    isJsTrimWs).reverse)

/-- JS `s.trim().toLowerCase()` (ASCII lowering, as used on the ASCII
well-known titles). -/
def jsTrimLower (s : String) : String :=
  String.mk ((((s.data.dropWhile isJsTrimWs).reverse.dropWhile
    isJsTrimWs).reverse).map Char.toLower)

def isTitlePageSection (sec : Section) : Bool :=
  sec.type == SectionType.frontmatter && jsTrimLower sec.title == "title page"

def buildTitlePageHTML (book : Book) : String :=
  let author := jsTrim book.author
  "<section class=\"title-page-auto\">\n    " ++
  (if author == "" then ""
   else "<p class=\"title-page-author\">" ++ escHtml author ++ "</p>") ++
  "\n    <h1 class=\"title-page-book-title\">" ++ escHtml book.title ++
  "</h1>\n  </section>"

def sectionId (sec : Section) : String := "section-" ++ sec.id

def sectionFilename (sec : Section) : String := sectionId sec ++ ".xhtml"

/-- `isEpigraphSec`: title-based detection or a `__type: 'epigraph'` tag in
the parsed content (`JSON.parse(sec.content)?.__type === 'epigraph'`). -/
def isEpigraphSec (sec : Section) : Bool :=
  if sec.type == SectionType.frontmatter &&
      jsTrimLower sec.title == "epigraph" then true
  else
    match parseJson sec.content with
    | some v =>
      match getField v "__type" with
      | some (JVal.str s) => s == "epigraph"
      | _ => false
    | none => false

/-- The raw `quote`/`attribution` properties of the object returned by
`parseEpigraph` (`src/bookeditor/src/components/EpigraphEditor.tsx`): the
parsed object is returned as-is when tagged, so the two properties can be
absent or non-strings. -/
structure EpigraphData where
  quote : Option JVal
  attribution : Option JVal

def parseEpigraph (content : String) : EpigraphData :=
  match parseJson content with
  | some v =>
    match getField v "__type" with
    | some (JVal.str s) =>
      if s == "epigraph" then ⟨getField v "quote", getField v "attribution"⟩
      else ⟨some (JVal.str ""), some (JVal.str "")⟩
    | _ => ⟨some (JVal.str ""), some (JVal.str "")⟩
  | none => ⟨some (JVal.str ""), some (JVal.str "")⟩

/-- `escHtml(x)` succeeds in JS only when `x` is a string (`.replace` on
anything else throws). -/
def jsStringOf : Option JVal → Option String
  | some (JVal.str s) => some s
  | _ => none

/-- `buildEpigraphXHTML`; `none` when `escHtml` is applied to a missing or
non-string `quote`, or to a truthy non-string `attribution`. -/
def buildEpigraphXHTML (sec : Section) : Option String := do
  let data := parseEpigraph sec.content
  let quote ← jsStringOf data.quote
  let attrHtml ←
    match data.attribution with
    | none => some ""
    | some v =>
      if truthy v then
        (jsStringOf (some v)).map
          (fun a => "— " ++ escHtml a)
      else some ""
  pure ("<?xml version=\"1.0\" encoding=\"UTF-8\"?>\n<!DOCTYPE html>\n" ++
    "<html xmlns=\"http://www.w3.org/1999/xhtml\" " ++
    "xmlns:epub=\"http://www.idpf.org/2007/ops\" lang=\"en\">\n<head>\n" ++
    "  <meta charset=\"UTF-8\"/>\n  <title>Epigraph</title>\n" ++
    "  <link rel=\"stylesheet\" type=\"text/css\" href=\"../styles/book.css\"/>\n" ++
    "</head>\n<body epub:type=\"frontmatter\">\n" ++
    "  <section epub:type=\"epigraph\" class=\"epigraph-section\" id=\"" ++
    sectionId sec ++ "\">\n    <div class=\"epigraph-block\">\n" ++
    "      <p class=\"epigraph-quote\">" ++ escHtml quote ++ "</p>\n" ++
    "      <p class=\"epigraph-attribution\">" ++ attrHtml ++ "</p>\n" ++
    "    </div>\n  </section>\n</body>\n</html>")

/-- `dataUrl.match(/^data:([^;]+);/)?.[1] ?? 'image/jpeg'`. -/
def coverMimeType (dataUrl : String) : String :=
  if "data:".isPrefixOf dataUrl then
    let rest := dataUrl.drop 5
    let mt := rest.takeWhile (fun c => !(c == ';'))
    if mt.length > 0 && mt.length < rest.length then mt else "image/jpeg"
  else "image/jpeg"

def coverExtension (mimeType : String) : String :=
  if mimeType == "image/png" then "png"
  else if mimeType == "image/webp" then "webp"
  else if mimeType == "image/gif" then "gif"
  else "jpg"

def buildCoverXHTML (coverExt : String) : String :=
  "<?xml version=\"1.0\" encoding=\"UTF-8\"?>\n<!DOCTYPE html>\n" ++
  "<html xmlns=\"http://www.w3.org/1999/xhtml\" " ++
  "xmlns:epub=\"http://www.idpf.org/2007/ops\" lang=\"en\">\n<head>\n" ++
  "  <meta charset=\"UTF-8\"/>\n  <title>Cover</title>\n  <style>\n" ++
  "    html, body \x7b margin: 0; padding: 0; width: 100%; height: 100%; \x7d\n" ++
  "    img.cover \x7b width: 100%; height: 100%; object-fit: cover; " ++
  "display: block; \x7d\n  </style>\n</head>\n<body epub:type=\"cover\">\n" ++
  "  <section epub:type=\"cover\">\n    <img class=\"cover\" " ++
  "src=\"../Images/cover." ++ coverExt ++ "\" alt=\"Cover\"/>\n" ++
  "  </section>\n</body>\n</html>"

/-- Value of one base64 alphabet character. -/
def b64Val (c : Char) : Option Nat :=
  if 65 ≤ c.toNat && c.toNat ≤ 90 then some (c.toNat - 65)
  else if 97 ≤ c.toNat && c.toNat ≤ 122 then some (c.toNat - 71)
  else if 48 ≤ c.toNat && c.toNat ≤ 57 then some (c.toNat + 4)
  else if c == '+' then some 62
  else if c == '/' then some 63
  else none

/-- Regroup 6-bit values into bytes (the tail groups carry 1 or 2 bytes). -/
def b64Regroup : List Nat → List Nat
  | a :: b :: c :: d :: rest =>
    (a * 4 + b / 16) :: (b % 16 * 16 + c / 4) :: (c % 4 * 64 + d) ::
      b64Regroup rest
  | [a, b] => [a * 4 + b / 16]
  | [a, b, c] => [a * 4 + b / 16, b % 16 * 16 + c / 4]
  | _ => []

/-- `atob`: forgiving-base64 decode; `none` is a thrown
`InvalidCharacterError`. -/
def atobJS (s : String) : Option (List Nat) :=
  let cs0 := s.data.filter (fun c =>
    !(c == ' ' || c == Char.ofNat 9 || c == Char.ofNat 10 ||
      c == Char.ofNat 12 || c == Char.ofNat 13))
  let cs :=
    if cs0.length % 4 == 0 then
      if cs0.reverse.take 2 == ['=', '='] then cs0.dropLast.dropLast
      else if cs0.reverse.take 1 == ['='] then cs0.dropLast
      else cs0
    else cs0
  if cs.length % 4 == 1 then none
  else (cs.mapM b64Val).map b64Regroup

/-- `dataUrlToBytes`: decode the part between the first and second comma. -/
def dataUrlToBytes (dataUrl : String) : Option (List Nat) :=
  atobJS ((dataUrl.splitOn ",").getD 1 "")

/-- JS truthiness of the `coverImage` field (`null` and `''` are falsy). -/
def hasCoverImage (book : Book) : Bool :=
  match book.coverImage with
  | some s => !(s == "")
  | none => false

def buildChapterXHTML (sec : Section) (book : Book)
    (chapterNum : Option Nat) : String :=
  let numHtml :=
    match chapterNum with
    | some n => "<p class=\"chapter-number\">" ++ toString n ++ "</p>\n    "
    | none => ""
  let body :=
    if isTitlePageSection sec then buildTitlePageHTML book
    else jsonToHTML sec.content sec.title true
  "<?xml version=\"1.0\" encoding=\"UTF-8\"?>\n<!DOCTYPE html>\n" ++
  "<html xmlns=\"http://www.w3.org/1999/xhtml\" " ++
  "xmlns:epub=\"http://www.idpf.org/2007/ops\" lang=\"en\">\n<head>\n" ++
  "  <meta charset=\"UTF-8\"/>\n  <title>" ++ escHtml sec.title ++
  "</title>\n" ++
  "  <link rel=\"stylesheet\" type=\"text/css\" href=\"../styles/book.css\"/>\n" ++
  "</head>\n<body epub:type=\"" ++
  (if sec.type == SectionType.frontmatter then "frontmatter"
   else if sec.type == SectionType.backmatter then "backmatter"
   else "bodymatter") ++
  "\">\n  <section epub:type=\"" ++
  (if sec.type == SectionType.chapter then "chapter" else sec.type.jsName) ++
  "\" id=\"" ++ sectionId sec ++ "\">\n    " ++ numHtml ++ body ++
  "\n  </section>\n</body>\n</html>"

def buildContainerXML : String :=
  "<?xml version=\"1.0\" encoding=\"UTF-8\"?>\n" ++
  "<container version=\"1.0\" " ++
  "xmlns=\"urn:oasis:names:tc:opendocument:xmlns:container\">\n" ++
  "  <rootfiles>\n    <rootfile full-path=\"OEBPS/content.opf\" " ++
  "media-type=\"application/oebps-package+xml\"/>\n  </rootfiles>\n" ++
  "</container>"

/-- `str.replace(' ', 'T')`: first occurrence only. -/
def replaceFirstChar (c r : Char) : List Char → List Char
  | [] => []
  | x :: xs => if x == c then r :: xs else x :: replaceFirstChar c r xs

def buildOPF (book : Book) (coverExt coverMime : String) : String :=
  let hasCover := hasCoverImage book
  let coverManifest :=
    if hasCover then
      "\n    <item id=\"cover-image\" href=\"Images/cover." ++ coverExt ++
      "\" media-type=\"" ++ coverMime ++ "\" properties=\"cover-image\"/>" ++
      "\n    <item id=\"cover-page\" href=\"Text/cover.xhtml\" " ++
      "media-type=\"application/xhtml+xml\"/>"
    else ""
  let coverMeta :=
    if hasCover then "\n    <meta name=\"cover\" content=\"cover-image\"/>"
    else ""
  let manifestItems := String.intercalate "\n"
    (book.sections.map (fun sec =>
      "    <item id=\"" ++ sectionId sec ++ "\" href=\"Text/" ++
      sectionFilename sec ++ "\" media-type=\"application/xhtml+xml\"/>"))
  let coverSpine :=
    if hasCover then "    <itemref idref=\"cover-page\"/>" else ""
  let spineItems := String.intercalate "\n"
    (book.sections.map (fun sec =>
      "    <itemref idref=\"" ++ sectionId sec ++ "\"/>"))
  "<?xml version=\"1.0\" encoding=\"UTF-8\"?>\n" ++
  "<package version=\"3.0\" xmlns=\"http://www.idpf.org/2007/opf\" " ++
  "unique-identifier=\"bookid\">\n" ++
  "  <metadata xmlns:dc=\"http://purl.org/dc/elements/1.1/\" " ++
  "xmlns:opf=\"http://www.idpf.org/2007/opf\">\n" ++
  "    <dc:title>" ++ escHtml book.title ++ "</dc:title>\n" ++
  "    <dc:creator>" ++
  escHtml (if book.author == "" then "Unknown Author" else book.author) ++
  "</dc:creator>\n    <dc:language>en</dc:language>\n" ++
  "    <dc:identifier id=\"bookid\">urn:uuid:" ++ book.id ++
  "</dc:identifier>\n    <meta property=\"dcterms:modified\">" ++
  String.mk (replaceFirstChar ' ' 'T' (book.updatedAt.take 19).data) ++
  "Z</meta>" ++ coverMeta ++ "\n  </metadata>\n  <manifest>\n" ++
  "    <item id=\"ncx\" href=\"toc.ncx\" " ++
  "media-type=\"application/x-dtbncx+xml\"/>\n" ++
  "    <item id=\"css\" href=\"styles/book.css\" media-type=\"text/css\"/>\n" ++
  "    <item id=\"nav\" href=\"nav.xhtml\" " ++
  "media-type=\"application/xhtml+xml\" properties=\"nav\"/>" ++
  coverManifest ++ "\n" ++ manifestItems ++ "\n  </manifest>\n" ++
  "  <spine toc=\"ncx\">\n" ++ coverSpine ++ "\n" ++ spineItems ++
  "\n  </spine>\n</package>"

def buildNCX (book : Book) : String :=
  let navPoints := String.join
    (book.sections.enum.map (fun p =>
      "\n  <navPoint id=\"" ++ sectionId p.2 ++ "\" playOrder=\"" ++
      toString (p.1 + 1) ++ "\">\n    <navLabel><text>" ++
      escHtml p.2.title ++ "</text></navLabel>\n" ++
      "    <content src=\"Text/" ++ sectionFilename p.2 ++ "\"/>\n" ++
      "  </navPoint>"))
  "<?xml version=\"1.0\" encoding=\"UTF-8\"?>\n" ++
  "<ncx xmlns=\"http://www.daisy.org/z3986/2005/ncx/\" " ++
  "version=\"2005-1\">\n  <head>\n" ++
  "    <meta name=\"dtb:uid\" content=\"urn:uuid:" ++ book.id ++ "\"/>\n" ++
  "  </head>\n  <docTitle><text>" ++ escHtml book.title ++
  "</text></docTitle>\n  <navMap>" ++ navPoints ++ "\n  </navMap>\n</ncx>"

def buildNavXHTML (book : Book) : String :=
  let items := String.intercalate "\n"
    (book.sections.map (fun sec =>
      "      <li><a href=\"Text/" ++ sectionFilename sec ++ "\">" ++
      escHtml sec.title ++ "</a></li>"))
  "<?xml version=\"1.0\" encoding=\"UTF-8\"?>\n" ++
  "<html xmlns=\"http://www.w3.org/1999/xhtml\" " ++
  "xmlns:epub=\"http://www.idpf.org/2007/ops\">\n" ++
  "<head><title>Table of Contents</title></head>\n<body>\n" ++
  "  <nav epub:type=\"toc\" id=\"toc\">\n    <h1>Contents</h1>\n    <ol>\n" ++
  items ++ "\n    </ol>\n  </nav>\n</body>\n</html>"

/-- The per-section entries of `buildEPUB`, with the running `chapterCount`
accumulator. -/
def sectionEntriesAux (book : Book) : Nat → List Section → Option (List ZEntry)
  | _, [] => some []
  | count, sec :: rest =>
    let count2 := if sec.type == SectionType.chapter then count + 1 else count
    let num : Option Nat :=
      if book.chapterNumbers.getD false && sec.type == SectionType.chapter
      then some count2 else none
    do
      let content ←
        if isEpigraphSec sec then buildEpigraphXHTML sec
        else some (buildChapterXHTML sec book num)
      let tail ← sectionEntriesAux book count2 rest
      pure (⟨"OEBPS/Text/" ++ sectionFilename sec, ZContent.str content⟩ ::
        tail)

/-- `const coverMime = book.coverImage ? coverMimeType(book.coverImage) :
'image/jpeg'`. -/
def epubCoverMime (book : Book) : String :=
  if hasCoverImage book then coverMimeType (book.coverImage.getD "")
  else "image/jpeg"

def epubCoverExt (book : Book) : String := coverExtension (epubCoverMime book)

/-- The six entries pushed unconditionally, in push order: `mimetype` first. -/
def epubBase (book : Book) : List ZEntry :=
  [⟨"mimetype", ZContent.str "application/epub+zip"⟩,
   ⟨"META-INF/container.xml", ZContent.str buildContainerXML⟩,
   ⟨"OEBPS/content.opf",
     ZContent.str (buildOPF book (epubCoverExt book) (epubCoverMime book))⟩,
   ⟨"OEBPS/toc.ncx", ZContent.str (buildNCX book)⟩,
   ⟨"OEBPS/nav.xhtml", ZContent.str (buildNavXHTML book)⟩,
   ⟨"OEBPS/styles/book.css",
     ZContent.str (buildBookCSS book.template book.paragraphIndent)⟩]

/-- The two cover entries when a cover image is present; `none` when its
data URL fails to decode (a thrown `InvalidCharacterError` in the source). -/
def epubCoverFiles (book : Book) : Option (List ZEntry) :=
  if hasCoverImage book then
    (dataUrlToBytes (book.coverImage.getD "")).map (fun bytes =>
      [⟨"OEBPS/Text/cover.xhtml",
         ZContent.str (buildCoverXHTML (epubCoverExt book))⟩,
       ⟨"OEBPS/Images/cover." ++ epubCoverExt book, ZContent.raw bytes⟩])
  else some []

/-- The `files` list assembled by `buildEPUB`, in push order. `none` when
the cover data URL fails to decode or an epigraph section renders a
non-string quote/attribution (a thrown error in the source). -/
def buildEPUBFiles (book : Book) : Option (List ZEntry) :=
  match epubCoverFiles book, sectionEntriesAux book 0 book.sections with
  | some coverFiles, some sectionFiles =>
    some (epubBase book ++ coverFiles ++ sectionFiles)
  | _, _ => none

/-- `buildEPUB`: the assembled files passed through `buildZip`. -/
def buildEPUB (book : Book) : Option (List Nat) :=
  (buildEPUBFiles book).map buildZip

/- ### ToC eligibility (`src/unnamed/part_002`, 42-50; the identical copy
in `src/unnamed/part_001`, 170-178) -/

/-- Front-matter titles that never appear in the generated ToC. -/
def TOC_EXCLUDED : List String :=
  ["half title page", "title page", "copyright", "dedication", "epigraph",
   "table of contents"]

/-- `shouldIncludeInToc`: not epigraph-detected, and the normalized title
is outside the exclusion set. There is no special case for chapters. -/
def shouldIncludeInToc (sec : Section) : Bool :=
  if isEpigraphSec sec then false
  else !(TOC_EXCLUDED.contains (jsTrimLower sec.title))

/-- The mandatory first archive entry. -/
def mimetypeEntry : ZEntry := ⟨"mimetype", ZContent.str "application/epub+zip"⟩

/-- Whenever `buildEPUB` produces a file list, it starts with the six base
entries, the first of which is the `mimetype` entry. -/
theorem buildEPUBFiles_shape {book : Book} {fs : List ZEntry}
    (h : buildEPUBFiles book = some fs) :
    fs.head? = some mimetypeEntry ∧ 6 ≤ fs.length := by
  unfold buildEPUBFiles at h
  cases hcf : epubCoverFiles book with
  | none => simp [hcf] at h
  | some cf =>
    cases hsf : sectionEntriesAux book 0 book.sections with
    | none => simp [hcf, hsf] at h
    | some sf =>
      simp only [hcf, hsf] at h
      rw [← Option.some.inj h]
      refine ⟨by simp [epubBase, mimetypeEntry], ?_⟩
      simp [epubBase]

theorem zipLocal_cons (e : ZEntry) (es : List ZEntry) :
    zipLocal (e :: es) = localChunk e ++ zipLocal es := rfl

set_option maxRecDepth 4096 in
/-- C2: for every `Book` for which `buildEPUB` returns an archive (it fails
only on an undecodable cover or a malformed epigraph payload), the archive
is never zero-entry: the file list has at least six entries, its head is an
entry named exactly `mimetype` whose content is the string
`application/epub+zip`, and the first 58 bytes of the archive are a 30-byte
local file header (signature 0x04034b50, method 0 = stored, compressed size
= uncompressed size = 20) followed immediately by the ASCII bytes of
`mimetype` and then the literal ASCII bytes `application/epub+zip`. -/
theorem buildEPUB_mimetype_first (book : Book)
    (h : (buildEPUB book).isSome = true) :
    ((buildEPUBFiles book).getD []).length ≥ 6 ∧
    ((buildEPUBFiles book).getD []).head? = some mimetypeEntry ∧
    ((buildEPUB book).getD []).take 58 =
      leBytes 4 0x04034b50 ++ leBytes 2 20 ++ leBytes 2 0 ++ leBytes 2 0 ++
      leBytes 2 0 ++ leBytes 2 0 ++
      leBytes 4 (crc32 (utf8Bytes "application/epub+zip")) ++
      leBytes 4 20 ++ leBytes 4 20 ++ leBytes 2 8 ++ leBytes 2 0 ++
      utf8Bytes "mimetype" ++ utf8Bytes "application/epub+zip" := by
  have hsome : (buildEPUBFiles book).isSome = true := by
    unfold buildEPUB at h
    simpa [Option.isSome_map] using h
  obtain ⟨fs, hfs⟩ := Option.isSome_iff_exists.mp hsome
  obtain ⟨hhead, hlen⟩ := buildEPUBFiles_shape hfs
  obtain ⟨m, rest, rfl⟩ : ∃ m rest, fs = m :: rest := by
    cases fs with
    | nil => simp at hhead
    | cons x r => exact ⟨x, r, rfl⟩
  have hm : m = mimetypeEntry := by
    simpa using hhead
  subst hm
  have hbuild : buildEPUB book = some (buildZip (mimetypeEntry :: rest)) := by
    unfold buildEPUB
    rw [hfs]
    rfl
  refine ⟨by rw [hfs]; simpa using hlen, by rw [hfs]; rfl, ?_⟩
  rw [hbuild]
  simp only [Option.getD_some]
  unfold buildZip
  have hchunk : (localChunk mimetypeEntry).length = 58 := by decide
  have h1 : (58 : Nat) ≤ (zipLocal (mimetypeEntry :: rest)).length := by
    rw [zipLocal_cons, List.length_append, hchunk]
    exact Nat.le_add_right _ _
  rw [List.take_append_of_le_length
      (by rw [List.length_append]; exact Nat.le_trans h1 (Nat.le_add_right _ _)),
    List.take_append_of_le_length h1, zipLocal_cons,
    List.take_append_of_le_length (by rw [hchunk]),
    show (58 : Nat) = (localChunk mimetypeEntry).length from hchunk.symm,
    List.take_length]
  decide

/-- Witness: a concrete book with an empty `sections` array still yields an
archive whose first entry is the `mimetype` entry. -/
def wepubBook : Book :=
  ⟨"b", "T", "A", Template.reedsy, [], none, true, none, 1000, 80000, [],
    "c", "u"⟩

theorem buildEPUB_mimetype_first_witness :
    ((buildEPUBFiles wepubBook).getD []).length ≥ 6 ∧
    ((buildEPUBFiles wepubBook).getD []).head? = some mimetypeEntry ∧
    ((buildEPUB wepubBook).getD []).take 58 =
      leBytes 4 0x04034b50 ++ leBytes 2 20 ++ leBytes 2 0 ++ leBytes 2 0 ++
      leBytes 2 0 ++ leBytes 2 0 ++
      leBytes 4 (crc32 (utf8Bytes "application/epub+zip")) ++
      leBytes 4 20 ++ leBytes 4 20 ++ leBytes 2 8 ++ leBytes 2 0 ++
      utf8Bytes "mimetype" ++ utf8Bytes "application/epub+zip" :=
  buildEPUB_mimetype_first wepubBook (by rfl)

/-- C9: `buildZip` is deterministic — it is a pure function of the entry
list (no clock is consulted anywhere in the embedding, which mirrors the
source: every DataView write is from the entries or a constant), and the
modification time and date fields of every local file header (offsets 10
and 12) and of every central-directory record (offsets 12 and 14) are
hard-coded to zero; consequently `buildEPUB` is a pure function of the
`Book` snapshot, so equal snapshots give byte-identical archives. -/
theorem buildZip_deterministic_zero_timestamps :
    (∀ files₁ files₂ : List ZEntry, files₁ = files₂ →
      buildZip files₁ = buildZip files₂) ∧
    (∀ (files : List ZEntry) (i : Nat) (hi : i < files.length),
      decodeLE (byteSlice (buildZip files) (lhOff files i + 10) 2) = 0 ∧
      decodeLE (byteSlice (buildZip files) (lhOff files i + 12) 2) = 0 ∧
      decodeLE (byteSlice (buildZip files) (cdOff files i + 12) 2) = 0 ∧
      decodeLE (byteSlice (buildZip files) (cdOff files i + 14) 2) = 0) ∧
    (∀ b₁ b₂ : Book, b₁ = b₂ → buildEPUB b₁ = buildEPUB b₂) := by
  refine ⟨fun f₁ f₂ h => by rw [h], ?_, fun b₁ b₂ h => by rw [h]⟩
  intro files i hi
  set e := files.get ⟨i, hi⟩ with he
  set R := zipLocal (files.drop (i + 1)) ++ (zipCD 0 files ++
    eocdBytes files.length (cdSizeOf files) (cdStartOf files)) with hR
  have hform : (buildZip files).drop (lhOff files i) =
      fieldsLE (lhFields e) ++ (e.nameBytes ++ (e.dataBytes ++ R)) := by
    rw [buildZip_drop_lhOff files i hi, hR, ← he]
    simp [localChunk, lhBytes, List.append_assoc]
  set R₂ := zipCD (lhOff files (i + 1)) (files.drop (i + 1)) ++
    eocdBytes files.length (cdSizeOf files) (cdStartOf files) with hR₂
  have hform₂ : (buildZip files).drop (cdOff files i) =
      fieldsLE (cdFields e (lhOff files i)) ++ (e.nameBytes ++ R₂) := by
    rw [buildZip_drop_cdOff files i hi, hR₂, ← he]
    simp [cdBytes, List.append_assoc]
  refine ⟨?_, ?_, ?_, ?_⟩
  · exact @decode_field_at (buildZip files) (lhOff files i) (lhFields e)
      (e.nameBytes ++ (e.dataBytes ++ R)) hform 4 10 2 0
      (by simp [lhFields]) (by simp [lhFields]) (by norm_num)
  · exact @decode_field_at (buildZip files) (lhOff files i) (lhFields e)
      (e.nameBytes ++ (e.dataBytes ++ R)) hform 5 12 2 0
      (by simp [lhFields]) (by simp [lhFields]) (by norm_num)
  · exact @decode_field_at (buildZip files) (cdOff files i)
      (cdFields e (lhOff files i)) (e.nameBytes ++ R₂) hform₂ 5 12 2 0
      (by simp [cdFields]) (by simp [cdFields]) (by norm_num)
  · exact @decode_field_at (buildZip files) (cdOff files i)
      (cdFields e (lhOff files i)) (e.nameBytes ++ R₂) hform₂ 6 14 2 0
      (by simp [cdFields]) (by simp [cdFields]) (by norm_num)

/-- Witness for `buildZip_deterministic_zero_timestamps` at concrete
inputs. -/
theorem buildZip_deterministic_zero_timestamps_witness :
    buildZip wzipFiles = buildZip wzipFiles ∧
    (decodeLE (byteSlice (buildZip wzipFiles) (lhOff wzipFiles 0 + 10) 2) = 0 ∧
     decodeLE (byteSlice (buildZip wzipFiles) (lhOff wzipFiles 0 + 12) 2) = 0 ∧
     decodeLE (byteSlice (buildZip wzipFiles) (cdOff wzipFiles 0 + 12) 2) = 0 ∧
     decodeLE (byteSlice (buildZip wzipFiles) (cdOff wzipFiles 0 + 14) 2) = 0) ∧
    buildEPUB wepubBook = buildEPUB wepubBook :=
  ⟨buildZip_deterministic_zero_timestamps.1 wzipFiles wzipFiles rfl,
   buildZip_deterministic_zero_timestamps.2.1 wzipFiles 0 (by decide),
   buildZip_deterministic_zero_timestamps.2.2 wepubBook wepubBook rfl⟩

/-- `pat` is a prefix of `l` (character comparison). -/
def startsWithSeq : List Char → List Char → Bool
  | [], _ => true
  | _ :: _, [] => false
  | p :: ps, x :: xs => p == x && startsWithSeq ps xs

/-- `pat` occurs contiguously somewhere in `l`. -/
def containsSeq (pat : List Char) : List Char → Bool
  | [] => startsWithSeq pat []
  | x :: xs => startsWithSeq pat (x :: xs) || containsSeq pat xs

set_option maxRecDepth 100000 in
/-- C5: the stylesheet built by `buildBookCSS` encodes the core indentation
rule for every template and both toggle values. With indentation enabled it
contains the sibling rule `p + p { text-indent: 1.5em; }` (a paragraph is
indented exactly when its immediately preceding sibling is a paragraph),
the reset rule zeroing the indent after headings, scene-break `hr`s,
blockquotes and lists, and the base rule `p { text-indent: 0; margin: 0; }`
(so the first paragraph of a container is never indented). With indentation
disabled it contains the uniform-spacing rule
`p { text-indent: 0; margin-bottom: 0.8em; }` and no `+ p` sibling selector
at all. -/
theorem buildBookCSS_indent_rules (t : Template) :
    containsSeq ("p + p \x7b text-indent: 1.5em; \x7d".data)
      (buildBookCSS t true).data = true ∧
    containsSeq (("h1 + p, h2 + p, h3 + p, hr + p, hr.scene-break + p, " ++
        "blockquote + p, ul + p, ol + p \x7b text-indent: 0; \x7d").data)
      (buildBookCSS t true).data = true ∧
    containsSeq ("p \x7b text-indent: 0; margin: 0; \x7d".data)
      (buildBookCSS t true).data = true ∧
    containsSeq ("p \x7b text-indent: 0; margin-bottom: 0.8em; \x7d".data)
      (buildBookCSS t false).data = true ∧
    containsSeq ("+ p".data) (buildBookCSS t false).data = false := by
  cases t <;>
    exact ⟨by decide, by decide, by decide, by decide, by decide⟩

/-- C3 counterexample: the claim says chapters are always ToC-eligible, but
`shouldIncludeInToc` has no chapter special-case — a section of type
`chapter` titled exactly `Copyright` is excluded. -/
theorem shouldIncludeInToc_chapter_copyright :
    shouldIncludeInToc
      ⟨"c1", SectionType.chapter, "Copyright", none, "", 0, []⟩ = false := by
  decide

/-- C3 amended: ToC eligibility ignores the section type entirely — for
every section (chapters included), `shouldIncludeInToc` is false when the
section is epigraph-detected or its trimmed lower-cased title is in the
fixed exclusion set, true otherwise; in particular a section titled
`Copyright` in any letter case is never eligible. -/
theorem shouldIncludeInToc_spec (sec : Section) :
    (TOC_EXCLUDED.contains (jsTrimLower sec.title) = true →
      shouldIncludeInToc sec = false) ∧
    (isEpigraphSec sec = false →
      TOC_EXCLUDED.contains (jsTrimLower sec.title) = false →
      shouldIncludeInToc sec = true) ∧
    (isEpigraphSec sec = true → shouldIncludeInToc sec = false) ∧
    (jsTrimLower sec.title = "copyright" → shouldIncludeInToc sec = false) := by
  refine ⟨?_, ?_, ?_, ?_⟩
  · intro h
    unfold shouldIncludeInToc
    split
    · rfl
    · rw [h]
      rfl
  · intro h1 h2
    unfold shouldIncludeInToc
    rw [if_neg (by simp [h1]), h2]
    rfl
  · intro h
    unfold shouldIncludeInToc
    rw [if_pos h]
  · intro h
    unfold shouldIncludeInToc
    split
    · rfl
    · rw [h]
      decide

/-- Witness for `shouldIncludeInToc_spec`: a front-matter Copyright page is
excluded; an ordinary chapter is eligible. -/
theorem shouldIncludeInToc_spec_witness :
    shouldIncludeInToc
      ⟨"f1", SectionType.frontmatter, "Copyright", none, "", 0, []⟩ = false ∧
    shouldIncludeInToc
      ⟨"c2", SectionType.chapter, "Chapter One", none, "", 0, []⟩ = true :=
  ⟨(shouldIncludeInToc_spec
      ⟨"f1", SectionType.frontmatter, "Copyright", none, "", 0, []⟩).1
      (by decide),
   (shouldIncludeInToc_spec
      ⟨"c2", SectionType.chapter, "Chapter One", none, "", 0, []⟩).2.1
      (by decide) (by decide)⟩

/- ### Project-file export/import (`src/unnamed/part_004`; `exportBookJSON`
serializes with `JSON.stringify`, so `serializeBook` below models the JSON
value of a `Book` — `JSON.stringify` then `JSON.parse` is the structural
identity on it, with `undefined`-valued optional fields omitted). -/

def NoteColor.jsName : NoteColor → String
  | NoteColor.yellow => "yellow"
  | NoteColor.blue => "blue"
  | NoteColor.green => "green"
  | NoteColor.pink => "pink"

def serializeNote (n : Note) : JVal :=
  JVal.obj [("id", JVal.str n.id), ("content", JVal.str n.content),
            ("pinned", JVal.bool n.pinned),
            ("color", JVal.str n.color.jsName),
            ("createdAt", JVal.str n.createdAt)]

def serializeSection (s : Section) : JVal :=
  JVal.obj ([("id", JVal.str s.id), ("type", JVal.str s.type.jsName),
             ("title", JVal.str s.title)] ++
    (match s.subtitle with
     | some st => [("subtitle", JVal.str st)]
     | none => []) ++
    [("content", JVal.str s.content), ("order", JVal.num s.order),
     ("notes", JVal.arr (s.notes.map serializeNote))])

def serializeGoal (g : DailyGoal) : JVal :=
  JVal.obj [("date", JVal.str g.date), ("target", JVal.num g.target),
            ("wordsWritten", JVal.num g.wordsWritten)]

/-- The JSON value of a `Book` as written by `exportBookJSON`
(`JSON.stringify(book, null, 2)` then re-parsed). -/
def serializeBook (b : Book) : JVal :=
  JVal.obj ([("id", JVal.str b.id), ("title", JVal.str b.title),
             ("author", JVal.str b.author),
             ("template", JVal.str b.template.jsName),
             ("sections", JVal.arr (b.sections.map serializeSection)),
             ("coverImage",
               match b.coverImage with
               | some c => JVal.str c
               | none => JVal.null),
             ("paragraphIndent", JVal.bool b.paragraphIndent)] ++
    (match b.chapterNumbers with
     | some v => [("chapterNumbers", JVal.bool v)]
     | none => []) ++
    [("dailyGoal", JVal.num b.dailyGoal),
     ("wordCountGoal", JVal.num b.wordCountGoal),
     ("goalHistory", JVal.arr (b.goalHistory.map serializeGoal)),
     ("createdAt", JVal.str b.createdAt),
     ("updatedAt", JVal.str b.updatedAt)])

/-- `typeof x === 'object' && x` (arrays are objects; `null` is excluded by
the truthiness test). -/
def isJsObject : JVal → Bool
  | JVal.obj _ => true
  | JVal.arr _ => true
  | _ => false

/-- The note filter of `validateSection`: a kept note is a truthy object
with string `id` and string `content`. -/
def wellShapedNote (n : JVal) : Bool :=
  isJsObject n &&
  (match getField n "id" with
   | some (JVal.str _) => true
   | _ => false) &&
  (match getField n "content" with
   | some (JVal.str _) => true
   | _ => false)

/-- The section record built by `validateSection`; kept notes are the raw
note objects, passed through by reference without further validation. -/
structure VSection where
  id : String
  type : SectionType
  title : String
  subtitle : Option String
  content : String
  order : Int
  notes : List JVal

/-- The raw `notes` array (`Array.isArray(s.notes) ? s.notes : []`). -/
def rawNotes (v : JVal) : List JVal :=
  match getField v "notes" with
  | some (JVal.arr ns) => ns
  | _ => []

/-- The success value of `validateSection`: subtitle kept only when a
string, content defaulted to `''`, order defaulted to the index, notes
filtered. -/
def mkVSection (raw : JVal) (id : String) (ty : SectionType) (title : String)
    (idx : Nat) : VSection :=
  { id := id, type := ty, title := title,
    subtitle :=
      match getField raw "subtitle" with
      | some (JVal.str st) => some st
      | _ => none,
    content :=
      match getField raw "content" with
      | some (JVal.str c) => c
      | _ => "",
    order :=
      match getField raw "order" with
      | some (JVal.num n) => n
      | _ => (idx : Int),
    notes := (rawNotes raw).filter wellShapedNote }

/-- `validateSection` of `src/unnamed/part_004` (35-61), check for check:
object test, non-empty string id, string title, enum type, note filter,
defaulted subtitle/content/order. -/
def validateSection (raw : JVal) (idx : Nat) : Except String VSection :=
  if !(isJsObject raw) then
    Except.error ("Section " ++ toString idx ++ " is not an object")
  else
    match getField raw "id" with
    | some (JVal.str id) =>
      if id == "" then
        Except.error ("Section " ++ toString idx ++ " is missing a valid id")
      else
        match getField raw "title" with
        | some (JVal.str title) =>
          match getField raw "type" with
          | some (JVal.str t) =>
            if t == "frontmatter" then
              Except.ok (mkVSection raw id SectionType.frontmatter title idx)
            else if t == "chapter" then
              Except.ok (mkVSection raw id SectionType.chapter title idx)
            else if t == "backmatter" then
              Except.ok (mkVSection raw id SectionType.backmatter title idx)
            else
              Except.error ("Section " ++ toString idx ++ " (\"" ++ id ++
                "\") has invalid type: \"" ++ t ++ "\"")
          | some other =>
            Except.error ("Section " ++ toString idx ++ " (\"" ++ id ++
              "\") has invalid type: \"" ++ jsDisplay other ++ "\"")
          | none =>
            Except.error ("Section " ++ toString idx ++ " (\"" ++ id ++
              "\") has invalid type: \"undefined\"")
        | _ =>
          Except.error ("Section " ++ toString idx ++ " (\"" ++ id ++
            "\") is missing a title")
    | _ => Except.error ("Section " ++ toString idx ++ " is missing a valid id")

/-- `book.sections.map((s, i) => validateSection(s, i))` with the thrown
error propagating. -/
def validateSections : List JVal → Nat → Except String (List VSection)
  | [], _ => Except.ok []
  | v :: vs, i =>
    match validateSection v i with
    | Except.error e => Except.error e
    | Except.ok s =>
      match validateSections vs (i + 1) with
      | Except.error e => Except.error e
      | Except.ok rest => Except.ok (s :: rest)

/-- The book value built by `importFromFile`. Fields without a `typeof`
check in the single-book path (`id`, `author`, `coverImage`,
`paragraphIndent`, `chapterNumbers`, `dailyGoal`, `wordCountGoal`,
`goalHistory`, `createdAt`) are passed through as raw JSON values. -/
structure IBook where
  id : JVal
  title : String
  author : JVal
  template : Template
  sections : List VSection
  coverImage : JVal
  paragraphIndent : JVal
  chapterNumbers : JVal
  dailyGoal : JVal
  wordCountGoal : JVal
  goalHistory : JVal
  createdAt : JVal
  updatedAt : String

/-- The `??` operator: the default for a missing (`undefined`) or `null`
value, the raw value otherwise. -/
def orDefault (v : Option JVal) (d : JVal) : JVal :=
  match v with
  | none => d
  | some JVal.null => d
  | some x => x

/-- `['reedsy', 'classic', 'romance'].includes(raw.template) ? raw.template
: 'reedsy'`. -/
def templateOf (v : Option JVal) : Template :=
  match v with
  | some (JVal.str s) =>
    if s == "reedsy" then Template.reedsy
    else if s == "classic" then Template.classic
    else if s == "romance" then Template.romance
    else Template.reedsy
  | _ => Template.reedsy

/-- One library-entry book (part_004, 73-95): all optional fields are
`typeof`-checked and coerced (unlike the single-book path). -/
def importLibraryBook (now gid : String) (i : Nat) (b : JVal) :
    Except String IBook :=
  if !(isJsObject b) then
    Except.error ("Library entry " ++ toString i ++ " is not a valid book")
  else
    match getField b "title" with
    | some (JVal.str title) =>
      match getField b "sections" with
      | some (JVal.arr secs) =>
        match validateSections secs 0 with
        | Except.error e => Except.error e
        | Except.ok vsecs =>
          Except.ok
            { id := JVal.str
                (match getField b "id" with
                 | some (JVal.str s) => s
                 | _ => gid),
              title := title,
              author := JVal.str
                (match getField b "author" with
                 | some (JVal.str a) => a
                 | _ => ""),
              template := templateOf (getField b "template"),
              sections := vsecs,
              coverImage :=
                (match getField b "coverImage" with
                 | some (JVal.str c) => JVal.str c
                 | _ => JVal.null),
              paragraphIndent := JVal.bool
                (match getField b "paragraphIndent" with
                 | some (JVal.bool v) => v
                 | _ => true),
              chapterNumbers := JVal.bool
                (match getField b "chapterNumbers" with
                 | some (JVal.bool v) => v
                 | _ => false),
              dailyGoal := JVal.num
                (match getField b "dailyGoal" with
                 | some (JVal.num n) => n
                 | _ => 1000),
              wordCountGoal := JVal.num
                (match getField b "wordCountGoal" with
                 | some (JVal.num n) => n
                 | _ => 80000),
              goalHistory :=
                (match getField b "goalHistory" with
                 | some (JVal.arr g) => JVal.arr g
                 | _ => JVal.arr []),
              createdAt :=
                (match getField b "createdAt" with
                 | some (JVal.str c) => JVal.str c
                 | _ => JVal.str now),
              updatedAt := now }
      | _ =>
        Except.error ("Library entry " ++ toString i ++ " is missing sections")
    | _ =>
      Except.error ("Library entry " ++ toString i ++ " is missing a title")

def importLibraryBooks (now gid : String) : Nat → List JVal →
    Except String (List IBook)
  | _, [] => Except.ok []
  | i, b :: bs =>
    match importLibraryBook now gid i b with
    | Except.error e => Except.error e
    | Except.ok ib =>
      match importLibraryBooks now gid (i + 1) bs with
      | Except.error e => Except.error e
      | Except.ok rest => Except.ok (ib :: rest)

/-- The branch test `typeof data.version === 'number' &&
Array.isArray(data.books)`, returning the books array when it passes. -/
def isLibraryFile (data : JVal) : Option (List JVal) :=
  match getField data "version", getField data "books" with
  | some (JVal.num _), some (JVal.arr books) => some books
  | _, _ => none

/-- `importFromFile` of `src/unnamed/part_004` (67-119) on the parsed JSON
value. `now` models `new Date().toISOString()` and `gid` models
`generateId()`; `Except.error` is a thrown `Error`. -/
def importFromFile (now gid : String) (data : JVal) :
    Except String (IBook ⊕ List IBook) :=
  match isLibraryFile data with
  | some books =>
    match importLibraryBooks now gid 0 books with
    | Except.error e => Except.error e
    | Except.ok ibs => Except.ok (Sum.inr ibs)
  | none =>
    match getField data "title" with
    | some (JVal.str title) =>
      match getField data "sections" with
      | some (JVal.arr secs) =>
        match validateSections secs 0 with
        | Except.error e => Except.error e
        | Except.ok vsecs =>
          Except.ok (Sum.inl
            { id := orDefault (getField data "id") (JVal.str gid),
              title := title,
              author := orDefault (getField data "author") (JVal.str ""),
              template := templateOf (getField data "template"),
              sections := vsecs,
              coverImage := orDefault (getField data "coverImage") JVal.null,
              paragraphIndent :=
                orDefault (getField data "paragraphIndent") (JVal.bool true),
              chapterNumbers :=
                orDefault (getField data "chapterNumbers") (JVal.bool false),
              dailyGoal := orDefault (getField data "dailyGoal") (JVal.num 1000),
              wordCountGoal :=
                orDefault (getField data "wordCountGoal") (JVal.num 80000),
              goalHistory := orDefault (getField data "goalHistory") (JVal.arr []),
              createdAt := orDefault (getField data "createdAt") (JVal.str now),
              updatedAt := now })
      | _ => Except.error "Invalid file: missing sections"
    | _ => Except.error "Invalid file: missing title"

/-- What a well-formed section becomes after export and re-import. -/
def toVSection (s : Section) : VSection :=
  ⟨s.id, s.type, s.title, s.subtitle, s.content, s.order,
    (s.notes.map serializeNote).filter wellShapedNote⟩

theorem validateSection_serialize (s : Section) (i : Nat)
    (h : (s.id == "") = false) :
    validateSection (serializeSection s) i = Except.ok (toVSection s) := by
  obtain ⟨sid, sty, stitle, ssub, scontent, sorder, snotes⟩ := s
  simp only [Section.id] at h
  cases ssub <;> cases sty <;>
    simp [validateSection, serializeSection, mkVSection, toVSection, getField,
      rawNotes, isJsObject, SectionType.jsName, h]

theorem validateSections_serialize (ss : List Section) (k : Nat)
    (h : ∀ s ∈ ss, (s.id == "") = false) :
    validateSections (ss.map serializeSection) k =
      Except.ok (ss.map toVSection) := by
  induction ss generalizing k with
  | nil => simp [validateSections]
  | cons s ss ih =>
    have h1 := h s (List.mem_cons_self s ss)
    have h2 := fun x hx => h x (List.mem_cons_of_mem s hx)
    simp only [List.map_cons, validateSections,
      validateSection_serialize s k h1, ih (k + 1) h2]

/-- The book produced by re-importing an exported `Book`. -/
def roundTripBook (b : Book) (now : String) : IBook :=
  { id := JVal.str b.id,
    title := b.title,
    author := JVal.str b.author,
    template := b.template,
    sections := b.sections.map toVSection,
    coverImage :=
      match b.coverImage with
      | some c => JVal.str c
      | none => JVal.null,
    paragraphIndent := JVal.bool b.paragraphIndent,
    chapterNumbers :=
      match b.chapterNumbers with
      | some v => JVal.bool v
      | none => JVal.bool false,
    dailyGoal := JVal.num b.dailyGoal,
    wordCountGoal := JVal.num b.wordCountGoal,
    goalHistory := JVal.arr (b.goalHistory.map serializeGoal),
    createdAt := JVal.str b.createdAt,
    updatedAt := now }

/-- C4 amended: for every `Book` whose sections all have non-empty ids,
serializing to the project-file JSON form (`exportBookJSON` via
`JSON.stringify`) and re-importing with `importFromFile` succeeds and
yields a book equal to the original in all required fields — same id and
title, and sections with the same ids, types, titles, contents, orders and
subtitles, in the same order — while optional fields absent from the file
are defaulted. (The unamended claim fails only for a section with the
empty-string id, which `validateSection` rejects.) -/
theorem export_import_roundtrip (b : Book) (now gid : String)
    (h : ∀ s ∈ b.sections, (s.id == "") = false) :
    importFromFile now gid (serializeBook b) =
      Except.ok (Sum.inl (roundTripBook b now)) ∧
    (roundTripBook b now).id = JVal.str b.id ∧
    (roundTripBook b now).title = b.title ∧
    (roundTripBook b now).template = b.template ∧
    (roundTripBook b now).sections.map VSection.id =
      b.sections.map Section.id ∧
    (roundTripBook b now).sections.map VSection.type =
      b.sections.map Section.type ∧
    (roundTripBook b now).sections.map VSection.title =
      b.sections.map Section.title ∧
    (roundTripBook b now).sections.map VSection.content =
      b.sections.map Section.content ∧
    (roundTripBook b now).sections.map VSection.order =
      b.sections.map Section.order ∧
    (roundTripBook b now).sections.map VSection.subtitle =
      b.sections.map Section.subtitle := by
  refine ⟨?_, rfl, rfl, rfl, ?_, ?_, ?_, ?_, ?_, ?_⟩
  · obtain ⟨bid, btitle, bauthor, btemp, bsecs, bcov, bpi, bcn, bdg, bwg,
      bgh, bca, bua⟩ := b
    cases bcn <;> cases bcov <;> cases btemp <;>
      simp [importFromFile, isLibraryFile, serializeBook, roundTripBook,
        getField, orDefault, templateOf, Template.jsName,
        validateSections_serialize _ _ h]
  all_goals
    simp [roundTripBook, toVSection, List.map_map, Function.comp]

/-- Witness for `export_import_roundtrip` at a concrete one-section book. -/
def wrtBook : Book :=
  ⟨"b1", "My Book", "An Author", Template.classic,
    [⟨"s1", SectionType.chapter, "One", some "sub", "hello", 3,
      [⟨"n1", "note", true, NoteColor.blue, "t0"⟩]⟩],
    none, false, some true, 500, 50000, [], "c0", "u0"⟩

theorem export_import_roundtrip_witness :
    importFromFile "NOW" "GID" (serializeBook wrtBook) =
      Except.ok (Sum.inl (roundTripBook wrtBook "NOW")) ∧
    (roundTripBook wrtBook "NOW").id = JVal.str wrtBook.id ∧
    (roundTripBook wrtBook "NOW").title = wrtBook.title ∧
    (roundTripBook wrtBook "NOW").template = wrtBook.template ∧
    (roundTripBook wrtBook "NOW").sections.map VSection.id =
      wrtBook.sections.map Section.id ∧
    (roundTripBook wrtBook "NOW").sections.map VSection.type =
      wrtBook.sections.map Section.type ∧
    (roundTripBook wrtBook "NOW").sections.map VSection.title =
      wrtBook.sections.map Section.title ∧
    (roundTripBook wrtBook "NOW").sections.map VSection.content =
      wrtBook.sections.map Section.content ∧
    (roundTripBook wrtBook "NOW").sections.map VSection.order =
      wrtBook.sections.map Section.order ∧
    (roundTripBook wrtBook "NOW").sections.map VSection.subtitle =
      wrtBook.sections.map Section.subtitle :=
  export_import_roundtrip wrtBook "NOW" "GID" (by decide)

/-- C4 counterexample: re-import is not total on all `Book` values — a book
holding a section whose id is the empty string serializes to a file that
`importFromFile` rejects (the thrown `Section 0 is missing a valid id`), so
no book equal to the original is yielded. -/
theorem export_import_empty_id_fails :
    importFromFile "NOW" "GID" (serializeBook
      ⟨"b2", "T", "", Template.reedsy,
        [⟨"", SectionType.chapter, "One", none, "", 0, []⟩],
        none, true, none, 1000, 80000, [], "c", "u"⟩) =
      Except.error "Section 0 is missing a valid id" := by
  simp [importFromFile, isLibraryFile, serializeBook, serializeSection,
    serializeNote, getField, validateSections, validateSection, isJsObject]
  rfl

theorem getField_obj_append_single (fs : List (String × JVal)) (k : String)
    (w : JVal) (key : String) (h : (k == key) = false) :
    getField (JVal.obj (fs ++ [(k, w)])) key = getField (JVal.obj fs) key := by
  have h2 : ¬ (k = key) := by simpa using h
  simp [getField, List.foldl_append, h2]

theorem validateSection_wco_invariant (fs : List (String × JVal)) (w : JVal)
    (idx : Nat) :
    validateSection (JVal.obj (fs ++ [("wordCountOverride", w)])) idx =
      validateSection (JVal.obj fs) idx := by
  simp [validateSection, mkVSection, rawNotes, isJsObject,
    getField_obj_append_single]

theorem orDefault_some_of_ne_null (x d : JVal) (h : x ≠ JVal.null) :
    orDefault (some x) d = x := by
  cases x <;> simp [orDefault] at h ⊢

theorem templateOf_jsName (t : Template) :
    templateOf (some (JVal.str (Template.jsName t))) = t := by
  cases t <;> simp [templateOf, Template.jsName]

/-- Every successful `validateSection` run exposes the raw fields it read. -/
theorem validateSection_ok_shape (v : JVal) (idx : Nat) (vs : VSection)
    (h : validateSection v idx = Except.ok vs) :
    getField v "id" = some (JVal.str vs.id) ∧
    getField v "title" = some (JVal.str vs.title) ∧
    getField v "type" = some (JVal.str vs.type.jsName) ∧
    vs = mkVSection v vs.id vs.type vs.title idx := by
  unfold validateSection at h
  split at h
  · simp at h
  · split at h
    · next id heq =>
      split at h
      · simp at h
      · split at h
        · next title heqt =>
          split at h
          · next t heqty =>
            split at h
            · next hf =>
              rw [← Except.ok.inj h]
              refine ⟨heq, heqt, ?_, rfl⟩
              rw [heqty]
              simp [mkVSection, SectionType.jsName]
              exact eq_of_beq hf
            · split at h
              · next hc =>
                rw [← Except.ok.inj h]
                refine ⟨heq, heqt, ?_, rfl⟩
                rw [heqty]
                simp [mkVSection, SectionType.jsName]
                exact eq_of_beq hc
              · split at h
                · next hb =>
                  rw [← Except.ok.inj h]
                  refine ⟨heq, heqt, ?_, rfl⟩
                  rw [heqty]
                  simp [mkVSection, SectionType.jsName]
                  exact eq_of_beq hb
                · simp at h
          · simp at h
          · simp at h
        · simp at h
    · simp at h

/-- Every successful single-book import is the record built from the raw
lookups, with `updatedAt := now`. -/
theorem importFromFile_ok_single (v : JVal) (now gid : String) (ib : IBook)
    (h : importFromFile now gid v = Except.ok (Sum.inl ib)) :
    ∃ title raws vsecs,
      getField v "title" = some (JVal.str title) ∧
      getField v "sections" = some (JVal.arr raws) ∧
      validateSections raws 0 = Except.ok vsecs ∧
      ib = { id := orDefault (getField v "id") (JVal.str gid),
             title := title,
             author := orDefault (getField v "author") (JVal.str ""),
             template := templateOf (getField v "template"),
             sections := vsecs,
             coverImage := orDefault (getField v "coverImage") JVal.null,
             paragraphIndent :=
               orDefault (getField v "paragraphIndent") (JVal.bool true),
             chapterNumbers :=
               orDefault (getField v "chapterNumbers") (JVal.bool false),
             dailyGoal := orDefault (getField v "dailyGoal") (JVal.num 1000),
             wordCountGoal :=
               orDefault (getField v "wordCountGoal") (JVal.num 80000),
             goalHistory := orDefault (getField v "goalHistory") (JVal.arr []),
             createdAt := orDefault (getField v "createdAt") (JVal.str now),
             updatedAt := now } := by
  unfold importFromFile at h
  split at h
  · split at h
    · simp at h
    · simp at h
  · split at h
    · next title heqt =>
      split at h
      · next raws heqs =>
        split at h
        · simp at h
        · next vsecs heqv =>
          refine ⟨title, raws, vsecs, heqt, heqs, heqv, ?_⟩
          exact (Sum.inl.inj (Except.ok.inj h)).symm
      · simp at h
    · simp at h

/-- C10: frame effects of the single-book import.
Part 1: every section accepted by `validateSection` keeps its raw `id`,
`type`, `title`, and its `subtitle`, `content` and `order` verbatim when
they are present with the right type, while its notes are exactly the raw
notes passing the well-shapedness filter (notes lacking a string id or
string content are silently dropped).
Part 2: every successful single-book `importFromFile` sets `updatedAt` to
the import time, regardless of any stored value, and passes every other
present non-null book field through unchanged (including a stored template
name of one of the three presets).
Part 3: `validateSection` is invariant under an extra `wordCountOverride`
field — the field is silently dropped. -/
theorem import_frame_effects :
    (∀ (v : JVal) (idx : Nat) (vs : VSection),
      validateSection v idx = Except.ok vs →
      getField v "id" = some (JVal.str vs.id) ∧
      getField v "title" = some (JVal.str vs.title) ∧
      getField v "type" = some (JVal.str vs.type.jsName) ∧
      (∀ st, getField v "subtitle" = some (JVal.str st) →
        vs.subtitle = some st) ∧
      (∀ c, getField v "content" = some (JVal.str c) → vs.content = c) ∧
      (∀ o, getField v "order" = some (JVal.num o) → vs.order = o) ∧
      vs.notes = (rawNotes v).filter wellShapedNote) ∧
    (∀ (v : JVal) (now gid : String) (ib : IBook),
      importFromFile now gid v = Except.ok (Sum.inl ib) →
      ib.updatedAt = now ∧
      getField v "title" = some (JVal.str ib.title) ∧
      (∃ raws, getField v "sections" = some (JVal.arr raws) ∧
        validateSections raws 0 = Except.ok ib.sections) ∧
      (∀ x, getField v "id" = some x → x ≠ JVal.null → ib.id = x) ∧
      (∀ x, getField v "author" = some x → x ≠ JVal.null → ib.author = x) ∧
      (∀ x, getField v "coverImage" = some x → x ≠ JVal.null →
        ib.coverImage = x) ∧
      (∀ x, getField v "paragraphIndent" = some x → x ≠ JVal.null →
        ib.paragraphIndent = x) ∧
      (∀ x, getField v "chapterNumbers" = some x → x ≠ JVal.null →
        ib.chapterNumbers = x) ∧
      (∀ x, getField v "dailyGoal" = some x → x ≠ JVal.null →
        ib.dailyGoal = x) ∧
      (∀ x, getField v "wordCountGoal" = some x → x ≠ JVal.null →
        ib.wordCountGoal = x) ∧
      (∀ x, getField v "goalHistory" = some x → x ≠ JVal.null →
        ib.goalHistory = x) ∧
      (∀ x, getField v "createdAt" = some x → x ≠ JVal.null →
        ib.createdAt = x) ∧
      (∀ t : Template, getField v "template" =
        some (JVal.str (Template.jsName t)) → ib.template = t)) ∧
    (∀ (fs : List (String × JVal)) (w : JVal) (idx : Nat),
      validateSection (JVal.obj (fs ++ [("wordCountOverride", w)])) idx =
        validateSection (JVal.obj fs) idx) := by
  refine ⟨?_, ?_, validateSection_wco_invariant⟩
  · intro v idx vs h
    obtain ⟨h1, h2, h3, hmk⟩ := validateSection_ok_shape v idx vs h
    refine ⟨h1, h2, h3, ?_, ?_, ?_, ?_⟩
    · intro st hst
      rw [hmk]
      simp [mkVSection, hst]
    · intro c hc
      rw [hmk]
      simp [mkVSection, hc]
    · intro o ho
      rw [hmk]
      simp [mkVSection, ho]
    · rw [hmk]
      simp [mkVSection]
  · intro v now gid ib h
    obtain ⟨title, raws, vsecs, ht, hs, hv, hib⟩ :=
      importFromFile_ok_single v now gid ib h
    subst hib
    refine ⟨rfl, ht, ⟨raws, hs, hv⟩, ?_, ?_, ?_, ?_, ?_, ?_, ?_, ?_, ?_, ?_⟩
    · intro x hx hnull
      show orDefault (getField v "id") (JVal.str gid) = x
      rw [hx]
      exact orDefault_some_of_ne_null x _ hnull
    · intro x hx hnull
      show orDefault (getField v "author") (JVal.str "") = x
      rw [hx]
      exact orDefault_some_of_ne_null x _ hnull
    · intro x hx hnull
      show orDefault (getField v "coverImage") JVal.null = x
      rw [hx]
      exact orDefault_some_of_ne_null x _ hnull
    · intro x hx hnull
      show orDefault (getField v "paragraphIndent") (JVal.bool true) = x
      rw [hx]
      exact orDefault_some_of_ne_null x _ hnull
    · intro x hx hnull
      show orDefault (getField v "chapterNumbers") (JVal.bool false) = x
      rw [hx]
      exact orDefault_some_of_ne_null x _ hnull
    · intro x hx hnull
      show orDefault (getField v "dailyGoal") (JVal.num 1000) = x
      rw [hx]
      exact orDefault_some_of_ne_null x _ hnull
    · intro x hx hnull
      show orDefault (getField v "wordCountGoal") (JVal.num 80000) = x
      rw [hx]
      exact orDefault_some_of_ne_null x _ hnull
    · intro x hx hnull
      show orDefault (getField v "goalHistory") (JVal.arr []) = x
      rw [hx]
      exact orDefault_some_of_ne_null x _ hnull
    · intro x hx hnull
      show orDefault (getField v "createdAt") (JVal.str now) = x
      rw [hx]
      exact orDefault_some_of_ne_null x _ hnull
    · intro t htv
      show templateOf (getField v "template") = t
      rw [htv]
      exact templateOf_jsName t

/-- Concrete raw inputs for the `import_frame_effects` witness. -/
def wrawSection : JVal :=
  JVal.obj [("id", JVal.str "s1"), ("title", JVal.str "T"),
    ("type", JVal.str "chapter"), ("content", JVal.str "c"),
    ("order", JVal.num 2),
    ("notes", JVal.arr [JVal.null,
      JVal.obj [("id", JVal.str "n1"), ("content", JVal.str "nc")]]),
    ("wordCountOverride", JVal.num 5)]

def wvSection : VSection :=
  ⟨"s1", SectionType.chapter, "T", none, "c", 2,
    [JVal.obj [("id", JVal.str "n1"), ("content", JVal.str "nc")]]⟩

def wrawBook : JVal :=
  JVal.obj [("title", JVal.str "B"), ("sections", JVal.arr []),
    ("updatedAt", JVal.str "OLD"), ("author", JVal.str "A"),
    ("template", JVal.str "romance"), ("dailyGoal", JVal.num 7)]

def wIBook : IBook :=
  { id := JVal.str "GID", title := "B", author := JVal.str "A",
    template := Template.romance, sections := [], coverImage := JVal.null,
    paragraphIndent := JVal.bool true, chapterNumbers := JVal.bool false,
    dailyGoal := JVal.num 7, wordCountGoal := JVal.num 80000,
    goalHistory := JVal.arr [], createdAt := JVal.str "NOW",
    updatedAt := "NOW" }

theorem import_frame_effects_witness :
    (getField wrawSection "id" = some (JVal.str wvSection.id) ∧
     getField wrawSection "title" = some (JVal.str wvSection.title) ∧
     getField wrawSection "type" =
       some (JVal.str wvSection.type.jsName) ∧
     (∀ st, getField wrawSection "subtitle" = some (JVal.str st) →
       wvSection.subtitle = some st) ∧
     (∀ c, getField wrawSection "content" = some (JVal.str c) →
       wvSection.content = c) ∧
     (∀ o, getField wrawSection "order" = some (JVal.num o) →
       wvSection.order = o) ∧
     wvSection.notes = (rawNotes wrawSection).filter wellShapedNote) ∧
    (wIBook.updatedAt = "NOW" ∧
     getField wrawBook "title" = some (JVal.str wIBook.title) ∧
     (∃ raws, getField wrawBook "sections" = some (JVal.arr raws) ∧
       validateSections raws 0 = Except.ok wIBook.sections) ∧
     (∀ x, getField wrawBook "id" = some x → x ≠ JVal.null →
       wIBook.id = x) ∧
     (∀ x, getField wrawBook "author" = some x → x ≠ JVal.null →
       wIBook.author = x) ∧
     (∀ x, getField wrawBook "coverImage" = some x → x ≠ JVal.null →
       wIBook.coverImage = x) ∧
     (∀ x, getField wrawBook "paragraphIndent" = some x → x ≠ JVal.null →
       wIBook.paragraphIndent = x) ∧
     (∀ x, getField wrawBook "chapterNumbers" = some x → x ≠ JVal.null →
       wIBook.chapterNumbers = x) ∧
     (∀ x, getField wrawBook "dailyGoal" = some x → x ≠ JVal.null →
       wIBook.dailyGoal = x) ∧
     (∀ x, getField wrawBook "wordCountGoal" = some x → x ≠ JVal.null →
       wIBook.wordCountGoal = x) ∧
     (∀ x, getField wrawBook "goalHistory" = some x → x ≠ JVal.null →
       wIBook.goalHistory = x) ∧
     (∀ x, getField wrawBook "createdAt" = some x → x ≠ JVal.null →
       wIBook.createdAt = x) ∧
     (∀ t : Template, getField wrawBook "template" =
       some (JVal.str (Template.jsName t)) → wIBook.template = t)) ∧
    validateSection (JVal.obj ([("id", JVal.str "s2"),
        ("title", JVal.str "U"), ("type", JVal.str "backmatter")] ++
        [("wordCountOverride", JVal.num 9)])) 4 =
      validateSection (JVal.obj [("id", JVal.str "s2"),
        ("title", JVal.str "U"), ("type", JVal.str "backmatter")]) 4 :=
  ⟨import_frame_effects.1 wrawSection 0 wvSection (by rfl),
   import_frame_effects.2.1 wrawBook "NOW" "GID" wIBook (by rfl),
   import_frame_effects.2.2 [("id", JVal.str "s2"), ("title", JVal.str "U"),
     ("type", JVal.str "backmatter")] (JVal.num 9) 4⟩

/- ### C6-C8: renderer mark order, escHtml character set, parse fallback -/

/-- A text node carrying the marks `[bold, italic]`, in that order. -/
def wMarkNode : JVal :=
  JVal.obj [("type", JVal.str "text"), ("text", JVal.str "text"),
    ("marks", JVal.arr [JVal.obj [("type", JVal.str "bold")],
      JVal.obj [("type", JVal.str "italic")]])]

/-- Counterexample to C6 as stated: a text node with marks `[bold, italic]`
renders with `<em>` outermost, not `<strong>`: the first-listed mark is
wrapped first and therefore ends up innermost. -/
theorem renderNode_mark_order_counterexample :
    renderNodeJS wMarkNode = some "<em><strong>text</strong></em>" ∧
    renderNodeJS wMarkNode ≠ some "<strong><em>text</em></strong>" := by
  refine ⟨by rfl, ?_⟩
  rw [show renderNodeJS wMarkNode = some "<em><strong>text</strong></em>"
    from rfl]
  decide

/-- C6 (corrected): the renderer wraps the escaped text successively in mark
tags in the order the marks appear, so the FIRST-listed mark becomes the
INNERMOST element: for every text string, a text node with marks
`[bold, italic]` renders as `<em><strong>text</strong></em>`, with the
last-listed mark outermost. -/
theorem renderNode_marks_first_innermost (s : String) :
    renderNodeJS (JVal.obj [("type", JVal.str "text"),
        ("text", JVal.str s),
        ("marks", JVal.arr [JVal.obj [("type", JVal.str "bold")],
          JVal.obj [("type", JVal.str "italic")]])]) =
      some ("<em>" ++ ("<strong>" ++ escHtml s ++ "</strong>") ++ "</em>") := by
  rfl

/-- The per-character escape map that `escHtml` implements: exactly the four
characters `&` (38), `<` (60), `>` (62) and `"` (34) map to entities; every
other character, the apostrophe included, maps to itself. -/
def escMap4 (c : Char) : List Char :=
  if c == Char.ofNat 38 then "&amp;".data
  else if c == Char.ofNat 60 then "&lt;".data
  else if c == Char.ofNat 62 then "&gt;".data
  else if c == quoteChar then "&quot;".data
  else [c]

theorem replaceAllChar_single (p : Char) (rep : List Char) (c : Char) :
    replaceAllChar p rep [c] = if c == p then rep else [c] := by
  simp [replaceAllChar]

theorem replaceAllChar_append (p : Char) (rep : List Char) (a b : List Char) :
    replaceAllChar p rep (a ++ b) =
      replaceAllChar p rep a ++ replaceAllChar p rep b := by
  simp [replaceAllChar]

theorem replaceAllChar_cons (p : Char) (rep : List Char) (c : Char)
    (l : List Char) :
    replaceAllChar p rep (c :: l) =
      replaceAllChar p rep [c] ++ replaceAllChar p rep l := by
  simp [replaceAllChar]

/-- The four sequential global replacements act on a single character as the
one-pass map `escMap4` (no replacement string contains `<`, `>` or `"`, so
later passes never rewrite the output of an earlier one). -/
theorem quad_single (c : Char) :
    replaceAllChar quoteChar ("&quot;".data)
      (replaceAllChar (Char.ofNat 62) ("&gt;".data)
        (replaceAllChar (Char.ofNat 60) ("&lt;".data)
          (replaceAllChar (Char.ofNat 38) ("&amp;".data) [c]))) =
      escMap4 c := by
  by_cases h1 : c = Char.ofNat 38
  · subst h1; decide
  · by_cases h2 : c = Char.ofNat 60
    · subst h2; decide
    · by_cases h3 : c = Char.ofNat 62
      · subst h3; decide
      · by_cases h4 : c = quoteChar
        · subst h4; decide
        · simp [replaceAllChar_single, escMap4, h1, h2, h3, h4]

theorem escHtml_char_map_aux (l : List Char) :
    replaceAllChar quoteChar ("&quot;".data)
      (replaceAllChar (Char.ofNat 62) ("&gt;".data)
        (replaceAllChar (Char.ofNat 60) ("&lt;".data)
          (replaceAllChar (Char.ofNat 38) ("&amp;".data) l))) =
      (l.map escMap4).flatten := by
  induction l with
  | nil => rfl
  | cons c l ih =>
    rw [replaceAllChar_cons, replaceAllChar_append, replaceAllChar_append,
      replaceAllChar_append, quad_single, ih]
    rfl

/-- Counterexample to C7 as stated: `escHtml` leaves the apostrophe
(code point 39) untouched, so it appears unescaped in the output. -/
theorem escHtml_apostrophe_counterexample :
    escHtml (String.mk [aposChar]) = String.mk [aposChar] ∧
    aposChar ∈ (escHtml (String.mk [aposChar])).data := by
  decide

/-- C7 (corrected): `escHtml` escapes exactly FOUR characters — every
occurrence of each input character is rewritten by the one-pass map
`escMap4`, which sends `&`, `<`, `>` and `"` to their entities and every
other character to itself — and in particular the apostrophe passes through
unescaped. -/
theorem escHtml_escapes_four (s : String) :
    escHtml s = String.mk (s.data.map escMap4).flatten ∧
    escHtml (String.mk [aposChar]) = String.mk [aposChar] := by
  refine ⟨?_, by decide⟩
  show String.mk _ = _
  rw [escHtml_char_map_aux]

/-- Counterexample to C8 as stated: on the empty content string (which is
not valid JSON) `jsonToHTML` does not produce the escaped content inside a
plain paragraph; it returns the special blank-paragraph element instead. -/
theorem jsonToHTML_empty_counterexample :
    jsonToHTML "" "T" true =
      "<h1>T</h1><p class=\"blank-paragraph\">&nbsp;</p>" ∧
    jsonToHTML "" "T" true ≠ "<h1>T</h1><p></p>" := by
  refine ⟨by rfl, ?_⟩
  rw [show jsonToHTML "" "T" true =
    "<h1>T</h1><p class=\"blank-paragraph\">&nbsp;</p>" from rfl]
  decide

/-- C8 (corrected): `jsonToHTML` never raises, and on a NON-EMPTY content
string that fails to parse as JSON it returns the heading followed by the
HTML-escaped content in a plain paragraph; the empty string is special-cased
to the heading followed by a blank-paragraph element. -/
theorem jsonToHTML_fallback (s title : String)
    (hp : parseJson s = none) (hs : (s == "") = false) :
    jsonToHTML s title true =
      "<h1>" ++ escHtml title ++ "</h1>" ++ "<p>" ++ escHtml s ++ "</p>" ∧
    jsonToHTML "" title true =
      "<h1>" ++ escHtml title ++ "</h1>" ++
        "<p class=\"blank-paragraph\">&nbsp;</p>" := by
  constructor
  · simp [jsonToHTML, hs, hp]
  · simp [jsonToHTML]

theorem jsonToHTML_fallback_witness :
    parseJson "not json" = none ∧ (("not json" : String) == "") = false ∧
    (jsonToHTML "not json" "T" true =
      "<h1>" ++ escHtml "T" ++ "</h1>" ++ "<p>" ++ escHtml "not json" ++
        "</p>" ∧
     jsonToHTML "" "T" true =
      "<h1>" ++ escHtml "T" ++ "</h1>" ++
        "<p class=\"blank-paragraph\">&nbsp;</p>") :=
  ⟨by rfl, by rfl, jsonToHTML_fallback "not json" "T" (by rfl) (by rfl)⟩

end DiveJump
